import Mathlib

/-!
Shallow embedding of the `ocean-ca` cellular-automaton simulator
(`constants.py`, `cell.py`, `species.py`, `environment.py`, `simulation.py`).

Python floats are modelled as rationals, Python's `None` as `Option`,
the 2-dimensional `list` grid as `List (List Cell)`, and the global
`random` module as an explicit stream structure threaded through the
rule passes.
-/

namespace OceanCA

/-! ### constants.py -/

abbrev WATER : ℕ := 0
abbrev SAND : ℕ := 1
abbrev ROCK : ℕ := 2
abbrev CORAL_ROCK : ℕ := 3
abbrev LAVA : ℕ := 4
abbrev AGENT : ℕ := 5

abbrev SUBTYPE_UNSPEC : ℕ := 0
abbrev SUBTYPE_ROOT : ℕ := 1
abbrev SUBTYPE_STEM : ℕ := 2
abbrev SUBTYPE_REPRO : ℕ := 3
abbrev SUBTYPE_SPORE : ℕ := 4

abbrev SPECIES_SEAWEED : ℕ := 0
abbrev SPECIES_KELP : ℕ := 1
abbrev SPECIES_SEAGRASS : ℕ := 2
abbrev SPECIES_CORAL : ℕ := 3

/-! ### cell.py -/

structure Cell where
  cell_type : ℕ := WATER
  species_id : Option ℕ := none
  subtype : Option ℕ := none
  nutrient : ℚ := 0
  age : ℕ := 0
  agent_id : Option ℕ := none
  temp : Option ℚ := none
  spore_age : ℕ := 0
deriving DecidableEq, Repr

/-- The all-default cell (`Cell()` in Python: plain water). -/
def waterCell : Cell := {}

instance : Inhabited Cell := ⟨waterCell⟩

/-! ### species.py -/

structure MarinePlantSpecies where
  species_id : ℕ
  allowed_substrates : List ℕ
  growth_threshold : ℚ
  substrate_absorb_rate : ℚ
  light_absorb_rate : ℚ
  base_repro_prob : ℚ
  repro_age : ℕ
  max_age : ℕ
  spore_life : ℕ
  initial_nutrient : ℚ
deriving DecidableEq, Repr

def MarinePlantSpecies.can_attach (s : MarinePlantSpecies) (below_type : ℕ) : Bool :=
  s.allowed_substrates.contains below_type

def MarinePlantSpecies.reproduce_chance (s : MarinePlantSpecies) (age : ℕ) : ℚ :=
  if age < s.repro_age then 0 else s.base_repro_prob

def seaweedDef : MarinePlantSpecies :=
  { species_id := SPECIES_SEAWEED, allowed_substrates := [ROCK, CORAL_ROCK]
    growth_threshold := 10, substrate_absorb_rate := 1, light_absorb_rate := 1
    base_repro_prob := mkRat 2 100, repro_age := 8, max_age := 50, spore_life := 15
    initial_nutrient := 5 }

def kelpDef : MarinePlantSpecies :=
  { species_id := SPECIES_KELP, allowed_substrates := [ROCK]
    growth_threshold := 12, substrate_absorb_rate := mkRat 3 2, light_absorb_rate := mkRat 6 5
    base_repro_prob := mkRat 15 1000, repro_age := 10, max_age := 60, spore_life := 20
    initial_nutrient := 6 }

def seagrassDef : MarinePlantSpecies :=
  { species_id := SPECIES_SEAGRASS, allowed_substrates := [SAND]
    growth_threshold := 8, substrate_absorb_rate := mkRat 6 5, light_absorb_rate := mkRat 4 5
    base_repro_prob := mkRat 25 1000, repro_age := 7, max_age := 45, spore_life := 12
    initial_nutrient := 4 }

def coralDef : MarinePlantSpecies :=
  { species_id := SPECIES_CORAL, allowed_substrates := [ROCK, CORAL_ROCK]
    growth_threshold := 15, substrate_absorb_rate := 1, light_absorb_rate := mkRat 3 2
    base_repro_prob := mkRat 1 100, repro_age := 12, max_age := 80, spore_life := 25
    initial_nutrient := 7 }

/-- `species_defs` dictionary; an id outside the closed set `{0,1,2,3}` is a
fatal programming error in the source and is mapped to the seaweed entry. -/
def species_defs : ℕ → MarinePlantSpecies
  | 0 => seaweedDef
  | 1 => kelpDef
  | 2 => seagrassDef
  | 3 => coralDef
  | _ + 4 => seaweedDef

/-! ### Grid representation: `grid[y][x]`, row-major, `y` downward -/

abbrev Grid := List (List Cell)

/-- Read `grid[y][x]` (all accesses in the source are in bounds; out of
bounds reads default to a plain water cell). -/
def getCell (g : Grid) (y x : ℕ) : Cell :=
  (g.getD y []).getD x waterCell

/-- In-place field update `grid[y][x] = f grid[y][x]`. -/
def gmod (g : Grid) (y x : ℕ) (f : Cell → Cell) : Grid :=
  g.set y ((g.getD y []).set x (f ((g.getD y []).getD x waterCell)))

/-- Well-formed `height × width` grid. -/
def gridWF (W H : ℕ) (g : Grid) : Prop :=
  g.length = H ∧ ∀ r ∈ g, r.length = W

/-! ### The seeded random module, modelled as explicit streams -/

/-! Python float arithmetic is modelled by rational arithmetic.  The `ℚ`
operations of the library are `@[irreducible]`, so the rule passes use the
following kernel-evaluable equivalents (proved equal to `+`, `-`, `*`
below), keeping every transition executable by `decide`. -/

/-- Evaluable rational addition (equal to `a + b`). -/
def qadd (a b : ℚ) : ℚ := mkRat (a.num * b.den + b.num * a.den) (a.den * b.den)

/-- Evaluable rational subtraction (equal to `a - b`). -/
def qsub (a b : ℚ) : ℚ := mkRat (a.num * b.den - b.num * a.den) (a.den * b.den)

/-- Evaluable rational multiplication (equal to `a * b`). -/
def qmul (a b : ℚ) : ℚ := mkRat (a.num * b.num) (a.den * b.den)

/-- Evaluable binary maximum (equal to `max a b`). -/
def qmax (a b : ℚ) : ℚ := if a ≤ b then b else a

/-- Evaluable fractional part: `q - ⌊q⌋`, always in `[0, 1)`. -/
def qfract (q : ℚ) : ℚ := mkRat (q.num % (q.den : ℤ)) q.den

structure RNG where
  floats : ℕ → ℚ
  ints : ℕ → ℤ
  perms : ℕ → ℕ
  fIdx : ℕ := 0
  iIdx : ℕ := 0
  pIdx : ℕ := 0

/-- `random.random()`: next value of the float stream, folded into `[0,1)`. -/
def nextFloat (r : RNG) : ℚ × RNG :=
  (qfract (r.floats r.fIdx), { r with fIdx := r.fIdx + 1 })

/-- `random.randint(lo, hi)` (inclusive bounds, `lo ≤ hi`). -/
def nextRandint (lo hi : ℤ) (r : RNG) : ℤ × RNG :=
  (lo + (r.ints r.iIdx).emod (hi - lo + 1), { r with iIdx := r.iIdx + 1 })

/-- One selection pass of a Fisher-Yates style shuffle, driven by `n`. -/
def shuffleGo {α : Type} : ℕ → ℕ → List α → List α
  | 0, _, l => l
  | _ + 1, _, [] => []
  | fuel + 1, n, a :: as =>
    let L := a :: as
    let i := n % L.length
    L.getD i a :: shuffleGo fuel (n / L.length) (L.eraseIdx i)

/-- `random.shuffle`: the permutation applied to the list is selected by the
next value of the permutation stream. -/
def nextShuffle {α : Type} (l : List α) (r : RNG) : List α × RNG :=
  (shuffleGo l.length (r.perms r.pIdx) l, { r with pIdx := r.pIdx + 1 })

/-- The deterministic stream derived from an integer seed
(`random.seed(seed)` / `np.random.seed(seed)`). -/
def seedRNG (seed : ℕ) : RNG :=
  { floats := fun n => mkRat ((seed + n) % 1000 : ℕ) 1000
    ints := fun n => (seed : ℤ) + n
    perms := fun n => seed + n }

/-- A concrete all-zeros stream, used to evaluate concrete scenarios. -/
def zeroRNG : RNG :=
  { floats := fun _ => 0, ints := fun _ => 0, perms := fun _ => 0 }

/-! ### environment.py -/

/-- Row-major coordinate list `[(y,x)]` for `y` in `ys`, `x` in `0..W-1`. -/
def rowCoords (ys : List ℕ) (W : ℕ) : List (ℕ × ℕ) :=
  ys.flatMap fun y => (List.range W).map fun x => (y, x)

/-- Scan order of the sand loop: `y` from `H-2` down to `0`, `x` left to right. -/
def sandCoords (W H : ℕ) : List (ℕ × ℕ) :=
  rowCoords (List.range (H - 1)).reverse W

/-- Scan order of the lava loop (and the agent loop): row-major from the top. -/
def gridCoords (W H : ℕ) : List (ℕ × ℕ) :=
  rowCoords (List.range H) W

/-- Sand-gravity treatment of one prior-generation cell
(`environment.py` lines 15-41). -/
def sandUpdate (old : Grid) (W : ℕ) (g : Grid) (p : ℕ × ℕ) : Grid :=
  let y := p.1
  let x := p.2
  let cell := getCell old y x
  if cell.cell_type = SAND then
    if (getCell old (y + 1) x).cell_type = WATER then
      gmod (gmod g y x fun c => { c with cell_type := WATER }) (y + 1) x
        fun c => { c with cell_type := SAND, temp := none }
    else if 0 < x ∧ (getCell old (y + 1) (x - 1)).cell_type = WATER then
      gmod (gmod g y x fun c => { c with cell_type := WATER }) (y + 1) (x - 1)
        fun c => { c with cell_type := SAND, temp := none }
    else if x + 1 < W ∧ (getCell old (y + 1) (x + 1)).cell_type = WATER then
      gmod (gmod g y x fun c => { c with cell_type := WATER }) (y + 1) (x + 1)
        fun c => { c with cell_type := SAND, temp := none }
    else g
  else g

def sandPass (old : Grid) (W H : ℕ) (g : Grid) : Grid :=
  (sandCoords W H).foldl (sandUpdate old W) g

/-- The four orthogonal spread offsets, in source order. -/
def lavaDirs : List (ℤ × ℤ) := [(-1, 0), (1, 0), (0, -1), (0, 1)]

/-- The spread loop of lines 61-68: each orthogonal neighbour that is Water
in the prior generation becomes Lava at `temp - 10` in the new one. -/
def lavaSpread (old : Grid) (W H y x : ℕ) (temp : ℚ) (g : Grid) : Grid :=
  lavaDirs.foldl
    (fun g2 d =>
      let nx := (x : ℤ) + d.1
      let ny := (y : ℤ) + d.2
      if 0 ≤ nx ∧ nx < (W : ℤ) ∧ 0 ≤ ny ∧ ny < (H : ℤ) ∧
          (getCell old ny.toNat nx.toNat).cell_type = WATER then
        gmod g2 ny.toNat nx.toNat
          fun c => { c with cell_type := LAVA, temp := some (qsub temp 10) }
      else g2)
    g

/-- Lava cooling/spreading treatment of one prior-generation cell
(`environment.py` lines 46-68). -/
def lavaUpdate (old : Grid) (W H : ℕ) (g : Grid) (p : ℕ × ℕ) : Grid :=
  let y := p.1
  let x := p.2
  let cell := getCell old y x
  if cell.cell_type = LAVA then
    let temp := qsub (cell.temp.getD 100) 5
    if temp ≤ 0 then
      gmod g y x fun c => { c with cell_type := ROCK, temp := none }
    else
      lavaSpread old W H y x temp (gmod g y x fun c => { c with temp := some temp })
  else g

def lavaPass (old : Grid) (W H : ℕ) (g : Grid) : Grid :=
  (gridCoords W H).foldl (lavaUpdate old W H) g

/-- `update_environment(old_grid, new_grid, width, height)`. -/
def update_environment (old : Grid) (g : Grid) (W H : ℕ) : Grid :=
  lavaPass old W H (sandPass old W H g)

/-! ### simulation.py: agent rule pass -/

/-- Ambient current vector (`self.current`). -/
structure Current where
  dx : ℤ
  dy : ℤ
  strength : ℚ
deriving DecidableEq

/-- Mutable state threaded through the agent pass: the new-generation grid,
the organism-id allocator and the random stream. -/
structure AState where
  g : Grid
  nid : ℕ
  rng : RNG

/-- Death write common to lines 166-179 of `simulation.py`: the cell reverts
to water; `cell_type`, `species_id`, `subtype`, `nutrient` and `agent_id`
are written, other fields are left as they are. -/
def clearToWater (c : Cell) : Cell :=
  { c with cell_type := WATER, species_id := none, subtype := none,
           nutrient := 0, agent_id := none }

/-- 2a. Aging: `c_new.age = cell.age + 1`. -/
def agingStage (cell : Cell) (y x : ℕ) (st : AState) : AState :=
  { st with g := gmod st.g y x fun c => { c with age := cell.age + 1 } }

/-- 2a. Substrate absorption / substrate-loss death for roots
(lines 155-179). `.inl` means the cell died and the scan continues with the
next cell. -/
def rootStage (old : Grid) (spec : MarinePlantSpecies) (cell : Cell)
    (H y x : ℕ) (st : AState) : AState ⊕ AState :=
  if cell.subtype = some SUBTYPE_ROOT then
    if y + 1 < H then
      if spec.can_attach (getCell old (y + 1) x).cell_type then
        let g1 := gmod st.g y x fun c =>
          { c with nutrient := qadd cell.nutrient spec.substrate_absorb_rate }
        .inr { st with g := g1 }
      else .inl { st with g := gmod st.g y x clearToWater }
    else .inl { st with g := gmod st.g y x clearToWater }
  else .inr st

/-- 2a. Light absorption (lines 181-184). -/
def lightStage (spec : MarinePlantSpecies) (cell : Cell)
    (H y x : ℕ) (st : AState) : AState :=
  if cell.subtype = some SUBTYPE_STEM ∨ cell.subtype = some SUBTYPE_REPRO ∨
      cell.species_id = some SPECIES_CORAL then
    let light := qmax 0 (qmul (qmul (mkRat (H - 1 - y : ℕ) 1) spec.light_absorb_rate) (mkRat 1 10))
    { st with g := gmod st.g y x fun c => { c with nutrient := qadd c.nutrient light } }
  else st

/-- 2b. Death by age or starvation (lines 186-203); reads the new cell. -/
def deathStage (spec : MarinePlantSpecies) (y x : ℕ) (st : AState) :
    AState ⊕ AState :=
  let cn := getCell st.g y x
  if spec.max_age < cn.age ∨ cn.nutrient < 0 then
    if cn.subtype = some SUBTYPE_ROOT then
      .inl { st with g := gmod st.g y x fun c =>
        { c with cell_type := SAND, nutrient := 0, species_id := none,
                 subtype := none, agent_id := none } }
    else
      .inl { st with g := gmod st.g y x fun c =>
        { c with cell_type := WATER, nutrient := 0, species_id := none,
                 subtype := none, agent_id := none } }
  else .inr st

/-- Up-to-5 spore placement attempts of the reproduction sub-rule
(lines 213-230). -/
def reproAttempts (old : Grid) (spec : MarinePlantSpecies) (cell : Cell)
    (W H y x : ℕ) : ℕ → AState → AState
  | 0, st => st
  | n + 1, st =>
    let p1 := nextRandint (-3) 3 st.rng
    let p2 := nextRandint (-3) 3 p1.2
    let rx := (x : ℤ) + p1.1
    let ry := (y : ℤ) + p2.1
    let st1 : AState := { st with rng := p2.2 }
    if 0 ≤ rx ∧ rx < (W : ℤ) ∧ 0 ≤ ry ∧ ry < (H : ℤ) then
      if (getCell old ry.toNat rx.toNat).cell_type = WATER ∧
          (getCell st1.g ry.toNat rx.toNat).cell_type = WATER then
        { st1 with
          g := gmod st1.g ry.toNat rx.toNat fun c =>
            { c with cell_type := AGENT, species_id := cell.species_id,
                     subtype := some SUBTYPE_SPORE,
                     nutrient := qmul spec.initial_nutrient (mkRat 1 2), age := 0,
                     agent_id := some st1.nid, spore_age := 0 }
          nid := st1.nid + 1 }
      else reproAttempts old spec cell W H y x n st1
    else reproAttempts old spec cell W H y x n st1

/-- 2c. Reproduction chance (lines 208-232). One uniform draw is always
consumed; on success the placement attempts run and the parent pays
`growth_threshold * 0.5` regardless of placement success. -/
def reproStage (old : Grid) (spec : MarinePlantSpecies) (cell : Cell)
    (W H y x : ℕ) (st : AState) : AState :=
  let cn := getCell st.g y x
  let repro_p := spec.reproduce_chance cn.age
  let d := nextFloat st.rng
  let st1 : AState := { st with rng := d.2 }
  if d.1 < repro_p then
    let st2 := reproAttempts old spec cell W H y x 5 st1
    { st2 with g := gmod st2.g y x fun c =>
        { c with nutrient := qsub c.nutrient (qmul spec.growth_threshold (mkRat 1 2)) } }
  else st1

/-- Growth candidate directions before shuffling (line 237). -/
def growthDirs : List (ℤ × ℤ) := [(0, -1), (-1, 0), (1, 0), (0, 1)]

/-- The first-fit loop of the growth sub-rule (lines 239-257). -/
def growthTry (old : Grid) (spec : MarinePlantSpecies) (cell : Cell)
    (W H y x : ℕ) : List (ℤ × ℤ) → AState → AState
  | [], st => st
  | d :: rest, st =>
    let nx := (x : ℤ) + d.1
    let ny := (y : ℤ) + d.2
    if 0 ≤ nx ∧ nx < (W : ℤ) ∧ 0 ≤ ny ∧ ny < (H : ℤ) then
      if (getCell old ny.toNat nx.toNat).cell_type = WATER ∧
          (getCell st.g ny.toNat nx.toNat).cell_type = WATER then
        let below_ty :=
          if ny.toNat + 1 < H then (getCell old (ny.toNat + 1) nx.toNat).cell_type
          else WATER
        let sub := if spec.can_attach below_ty then SUBTYPE_ROOT else SUBTYPE_STEM
        let st1 : AState := { st with
          g := gmod st.g ny.toNat nx.toNat fun c =>
            { c with cell_type := AGENT, species_id := cell.species_id,
                     subtype := some sub,
                     nutrient := qmul spec.initial_nutrient (mkRat 1 2), age := 0,
                     agent_id := cell.agent_id } }
        { st1 with g := gmod st1.g y x fun c =>
            { c with nutrient := qsub c.nutrient (qmul spec.growth_threshold (mkRat 7 10)) } }
      else growthTry old spec cell W H y x rest st
    else growthTry old spec cell W H y x rest st

/-- 2d. Growth (lines 234-257): shuffle the four directions, then first fit. -/
def growthStage (old : Grid) (spec : MarinePlantSpecies) (cell : Cell)
    (W H y x : ℕ) (st : AState) : AState :=
  let cn := getCell st.g y x
  if spec.growth_threshold ≤ cn.nutrient then
    let sh := nextShuffle growthDirs st.rng
    growthTry old spec cell W H y x sh.1 { st with rng := sh.2 }
  else st

/-- Lines 296-305: increment `spore_age` on the origin cell and apply the
expiry check against the freshly written value. -/
def sporeAgeCheck (spec : MarinePlantSpecies) (cell : Cell) (y x : ℕ)
    (st : AState) : AState :=
  let g1 := gmod st.g y x fun c => { c with spore_age := cell.spore_age + 1 }
  let c2 := getCell g1 y x
  if spec.spore_life < c2.spore_age then
    { st with g := gmod g1 y x fun c =>
        { c with cell_type := WATER, species_id := none, subtype := none,
                 nutrient := 0, agent_id := none, spore_age := 0 } }
  else { st with g := g1 }

/-- The spore relocation of a successful drift (lines 280-294): clear the
origin and write the spore fields at the target. -/
def driftMove (cell : Cell) (y x ty tx : ℕ) (st : AState) : AState :=
  let g1 := gmod st.g y x fun c =>
    { c with cell_type := WATER, species_id := none, subtype := none,
             nutrient := 0, agent_id := none, spore_age := 0 }
  { st with g := gmod g1 ty tx fun c =>
      { c with cell_type := AGENT, species_id := cell.species_id,
               subtype := some SUBTYPE_SPORE, nutrient := cell.nutrient,
               age := cell.age + 1, agent_id := cell.agent_id,
               spore_age := cell.spore_age + 1 } }

/-- 2e. Spore attachment / drift / expiry (lines 259-305). `.inl` is the
`break` of line 295: it aborts the scan of the whole row. -/
def sporeStage (old : Grid) (spec : MarinePlantSpecies) (cell : Cell)
    (cur : Current) (W H y x : ℕ) (st : AState) : AState ⊕ AState :=
  if cell.subtype = some SUBTYPE_SPORE then
    if y + 1 < H then
      if spec.can_attach (getCell old (y + 1) x).cell_type then
        .inr (sporeAgeCheck spec cell y x
          { st with g := gmod st.g y x fun c =>
              { c with subtype := some SUBTYPE_ROOT,
                       nutrient := qadd c.nutrient spec.initial_nutrient } })
      else if 0 < cur.strength then
        let d := nextFloat st.rng
        let st1 : AState := { st with rng := d.2 }
        if d.1 < cur.strength then
          let tx := (x : ℤ) + cur.dx
          let ty := (y : ℤ) + cur.dy
          if 0 ≤ tx ∧ tx < (W : ℤ) ∧ 0 ≤ ty ∧ ty < (H : ℤ) then
            if (getCell old ty.toNat tx.toNat).cell_type = WATER ∧
                (getCell st1.g ty.toNat tx.toNat).cell_type = WATER then
              .inl (driftMove cell y x ty.toNat tx.toNat st1)
            else .inr (sporeAgeCheck spec cell y x st1)
          else .inr (sporeAgeCheck spec cell y x st1)
        else .inr (sporeAgeCheck spec cell y x st1)
      else .inr (sporeAgeCheck spec cell y x st)
    else .inr (sporeAgeCheck spec cell y x st)
  else .inr st

/-- One visit of the agent scan (lines 142-305). The boolean result is `true`
exactly when line 295's `break` fired, which aborts the rest of the row. -/
def processAgent (old : Grid) (W H : ℕ) (cur : Current) (y x : ℕ)
    (st : AState) : AState × Bool :=
  let cell := getCell old y x
  if cell.cell_type = AGENT then
    let spec := species_defs (cell.species_id.getD 0)
    let st1 := agingStage cell y x st
    match rootStage old spec cell H y x st1 with
    | .inl st2 => (st2, false)
    | .inr st2 =>
      let st3 := lightStage spec cell H y x st2
      match deathStage spec y x st3 with
      | .inl st4 => (st4, false)
      | .inr st4 =>
        let st5 := reproStage old spec cell W H y x st4
        let st6 := growthStage old spec cell W H y x st5
        match sporeStage old spec cell cur W H y x st6 with
        | .inl st7 => (st7, true)
        | .inr st7 => (st7, false)
  else (st, false)

/-- The inner `for x in range(width)` loop; a `break` stops the row. -/
def agentRowGo (old : Grid) (W H : ℕ) (cur : Current) (y : ℕ) :
    List ℕ → AState → AState
  | [], st => st
  | x :: xs, st =>
    let r := processAgent old W H cur y x st
    if r.2 then r.1 else agentRowGo old W H cur y xs r.1

/-- The full agent scan: `for y in range(height): for x in range(width)`. -/
def agentPass (old : Grid) (W H : ℕ) (cur : Current) (st : AState) : AState :=
  (List.range H).foldl
    (fun st y => agentRowGo old W H cur y (List.range W) st) st

/-! ### simulation.py: the engine -/

structure Sim where
  width : ℕ
  height : ℕ
  grid : Grid
  next_agent_id : ℕ
  current : Current
  time_step : ℕ
  cell_counts : List (List ℕ)
  indiv_counts : List (List ℕ)
  rng : RNG

/-- Cell count of one species in a grid (step 4, lines 311-318). -/
def countCells (g : Grid) (sid : ℕ) : ℕ :=
  (g.flatten.filter fun c => c.cell_type = AGENT ∧ c.species_id = some sid).length

/-- Distinct organism-id count of one species (the `pop_inds` sets). -/
def countInds (g : Grid) (sid : ℕ) : ℕ :=
  ((g.flatten.filter fun c => c.cell_type = AGENT ∧ c.species_id = some sid).map
    (fun c => c.agent_id)).dedup.length

/-- `Simulation.step` (lines 118-325): environment pass, agent pass,
buffer swap, population tallies, time increment. -/
def step (s : Sim) : Sim :=
  let old := s.grid
  let g1 := update_environment old old s.width s.height
  let stF := agentPass old s.width s.height s.current ⟨g1, s.next_agent_id, s.rng⟩
  { s with
    grid := stF.g
    next_agent_id := stF.nid
    rng := stF.rng
    time_step := s.time_step + 1
    cell_counts := s.cell_counts ++ [(List.range 4).map (countCells stF.g)]
    indiv_counts := s.indiv_counts ++ [(List.range 4).map (countInds stF.g)] }

/-- `Simulation.plant_seed(x, y, species_id)` (lines 37-68). -/
def plant_seed (s : Sim) (x y species_id : ℕ) : Bool × Sim :=
  let spec := species_defs species_id
  let below_type :=
    if y + 1 < s.height then (getCell s.grid (y + 1) x).cell_type else WATER
  if spec.can_attach below_type then
    let g1 := gmod s.grid y x fun c =>
      { c with cell_type := AGENT, species_id := some species_id,
               subtype := some SUBTYPE_ROOT, nutrient := spec.initial_nutrient,
               age := 0, agent_id := some s.next_agent_id }
    let g2 :=
      if 1 ≤ y ∧ (getCell g1 (y - 1) x).cell_type = WATER then
        gmod g1 (y - 1) x fun c =>
          { c with cell_type := AGENT, species_id := some species_id,
                   subtype := some SUBTYPE_STEM,
                   nutrient := qmul spec.initial_nutrient (mkRat 1 2), age := 0,
                   agent_id := some s.next_agent_id }
      else g1
    (true, { s with grid := g2, next_agent_id := s.next_agent_id + 1 })
  else (false, s)

/-- `Simulation.set_current(dx, dy, strength)`. -/
def set_current (s : Sim) (dx dy : ℤ) (strength : ℚ) : Sim :=
  { s with current := ⟨dx, dy, strength⟩ }

/-- One overwrite of `erupt_volcano`'s loop body (lines 85-98). -/
def eruptOnce (x y : ℕ) (radius : ℕ) (s : Sim) : Sim :=
  let p1 := nextRandint (-(radius : ℤ)) radius s.rng
  let p2 := nextRandint (-(radius : ℤ)) radius p1.2
  let nx := (x : ℤ) + p1.1
  let ny := (y : ℤ) + p2.1
  let s1 := { s with rng := p2.2 }
  if 0 ≤ nx ∧ nx < (s.width : ℤ) ∧ 0 ≤ ny ∧ ny < (s.height : ℤ) then
    { s1 with grid := gmod s1.grid ny.toNat nx.toNat fun c =>
        { c with cell_type := LAVA, temp := some 100, species_id := none,
                 subtype := none, nutrient := 0, age := 0, agent_id := none } }
  else s1

/-- `Simulation.erupt_volcano(x, y, intensity, radius)` (lines 79-98). -/
def erupt_volcano (s : Sim) (x y intensity radius : ℕ) : Sim :=
  (List.range intensity).foldl (fun s _ => eruptOnce x y radius s) s

/-- `Simulation.paint_area(x1, y1, x2, y2, new_type)` (lines 100-116). -/
def paint_area (s : Sim) (x1 y1 x2 y2 new_type : ℕ) : Sim :=
  let x1c := max 0 (min x1 x2)
  let x2c := min (s.width - 1) (max x1 x2)
  let y1c := max 0 (min y1 y2)
  let y2c := min (s.height - 1) (max y1 y2)
  let coords := ((List.range (y2c + 1 - y1c)).map (· + y1c)).flatMap fun y =>
    ((List.range (x2c + 1 - x1c)).map (· + x1c)).map fun x => (y, x)
  let g1 := coords.foldl
    (fun g p => gmod g p.1 p.2 fun _ =>
      { cell_type := new_type, species_id := none, subtype := none,
        nutrient := 0, age := 0, agent_id := none, temp := none,
        spore_age := 0 })
    s.grid
  { s with grid := g1 }

/-- `Simulation.get_latest_counts` (lines 327-331). -/
def get_latest_counts (s : Sim) : Option (List ℕ × List ℕ) :=
  if s.cell_counts = [] then none
  else some (s.cell_counts.getLastD [], s.indiv_counts.getLastD [])

/-- `Simulation.__init__(width, height, seed)`: all-water grid with a rock
bottom row, allocator at 1, no current, empty histories. -/
def mkSim (W H : ℕ) (r : RNG) : Sim :=
  { width := W, height := H
    grid := (List.range H).map fun y =>
      (List.range W).map fun _ =>
        if y = H - 1 then { waterCell with cell_type := ROCK } else waterCell
    next_agent_id := 1
    current := ⟨0, 0, 0⟩
    time_step := 0
    cell_counts := []
    indiv_counts := []
    rng := r }

/-- A simulation constructed with an explicit integer seed. -/
def mkSeededSim (W H seed : ℕ) : Sim := mkSim W H (seedRNG seed)

/-- The mutator call sequence an external caller can issue. -/
inductive SimCall : Type
  | plant (x y sid : ℕ)
  | setCur (dx dy : ℤ) (strength : ℚ)
  | erupt (x y intensity radius : ℕ)
  | paint (x1 y1 x2 y2 t : ℕ)
  | stepOnce
deriving DecidableEq

def applyCall (s : Sim) : SimCall → Sim
  | .plant x y sid => (plant_seed s x y sid).2
  | .setCur dx dy strength => set_current s dx dy strength
  | .erupt x y intensity radius => erupt_volcano s x y intensity radius
  | .paint x1 y1 x2 y2 t => paint_area s x1 y1 x2 y2 t
  | .stepOnce => step s

def applyCalls (s : Sim) (cs : List SimCall) : Sim :=
  cs.foldl applyCall s

/-! ### Concrete fixtures used by the scenario theorems -/

/-- A free-floating seaweed spore with a given `spore_age`. -/
def sporeCellSA (sa : ℕ) : Cell :=
  { cell_type := AGENT, species_id := some SPECIES_SEAWEED,
    subtype := some SUBTYPE_SPORE, nutrient := 1, age := 0,
    agent_id := some 1, temp := none, spore_age := sa }

/-- A seaweed stem aged 5 (organism 2). -/
def stemCellAged : Cell :=
  { cell_type := AGENT, species_id := some SPECIES_SEAWEED,
    subtype := some SUBTYPE_STEM, nutrient := 1, age := 5,
    agent_id := some 2, temp := none, spore_age := 0 }

/-- A freshly planted seaweed root (organism 1). -/
def rootCellFresh : Cell :=
  { cell_type := AGENT, species_id := some SPECIES_SEAWEED,
    subtype := some SUBTYPE_ROOT, nutrient := 5, age := 0,
    agent_id := some 1, temp := none, spore_age := 0 }

/-- 4-wide, 2-high: a spore at `(x=0,y=0)`, a stem at `(x=2,y=0)`, water
elsewhere; rightward current of strength 1. -/
def c1Sim : Sim :=
  { mkSim 4 2 zeroRNG with
    grid := [[sporeCellSA 0, waterCell, stemCellAged, waterCell],
             [waterCell, waterCell, waterCell, waterCell]]
    current := ⟨1, 0, 1⟩ }

/-- 2-wide, 2-high: a spore whose `spore_age` already equals the seaweed
`spore_life` (15) at `(x=0,y=0)`, water elsewhere; rightward current of
strength 1. -/
def c3Sim : Sim :=
  { mkSim 2 2 zeroRNG with
    grid := [[sporeCellSA 15, waterCell], [waterCell, waterCell]]
    current := ⟨1, 0, 1⟩ }

/-- 3-wide, 2-high, no lava: Sand at `(0,0)` and `(2,0)`, below them Rock,
and a single shared Water slip destination at `(1,1)`. -/
def c2Grid : Grid :=
  [[{ waterCell with cell_type := SAND }, waterCell,
    { waterCell with cell_type := SAND }],
   [{ waterCell with cell_type := ROCK }, waterCell,
    { waterCell with cell_type := ROCK }]]

/-- 2-wide, 1-high: Lava at temperature 15 beside Water. -/
def c4Sim : Sim :=
  { mkSim 2 1 zeroRNG with
    grid := [[{ waterCell with cell_type := LAVA, temp := some 15 }, waterCell]] }

/-- 1-wide, 2-high: a rooted seaweed cell sitting on Water (its substrate is
gone), so it dies of substrate loss during the next step. -/
def c5Sim : Sim :=
  { mkSim 1 2 zeroRNG with grid := [[rootCellFresh], [waterCell]] }

/-- 5-wide, 6-high, all Water except a single Sand cell at `(x=3,y=3)`. -/
def c9Grid : Grid :=
  (List.range 6).map fun y => (List.range 5).map fun x =>
    if y = 3 ∧ x = 3 then { waterCell with cell_type := SAND } else waterCell

def c9Sim (r : RNG) : Sim := { mkSim 5 6 r with grid := c9Grid }

/-- The spec scenario: 10×10, all Water, row 9 Rock (the default `mkSim`
layout), then `plant_seed(5, 8, SPECIES_KELP)`. -/
def c8Sim (r : RNG) : Sim := (plant_seed (mkSim 10 10 r) 5 8 SPECIES_KELP).2

/-- The root cell written by `plant_seed(5, 8, SPECIES_KELP)`. -/
def kelpRootCell : Cell :=
  { cell_type := AGENT, species_id := some SPECIES_KELP,
    subtype := some SUBTYPE_ROOT, nutrient := 6, age := 0,
    agent_id := some 1, temp := none, spore_age := 0 }

/-- The stem cell written above it (nutrient `6 / 2.0`). -/
def kelpStemCell : Cell :=
  { cell_type := AGENT, species_id := some SPECIES_KELP,
    subtype := some SUBTYPE_STEM, nutrient := 3, age := 0,
    agent_id := some 1, temp := none, spore_age := 0 }

/-- The grid of `c8Sim` spelled out: stem at `(5,7)`, root at `(5,8)`,
Rock row 9, Water elsewhere. -/
def c8Grid : Grid :=
  (List.range 10).map fun y => (List.range 10).map fun x =>
    if y = 7 ∧ x = 5 then kelpStemCell
    else if y = 8 ∧ x = 5 then kelpRootCell
    else if y = 9 then { waterCell with cell_type := ROCK } else waterCell

/-- The new generation of `c8Grid` after the stem at `(5,7)` has aged and
absorbed light (random-stream-free form, used to evaluate guards). -/
def c8g3row7 : Grid :=
  (lightStage kelpDef (getCell c8Grid 7 5) 10 7 5
    (agingStage (getCell c8Grid 7 5) 7 5 ⟨c8Grid, 2, zeroRNG⟩)).g

/-- ... and after the root at `(5,8)` has also aged and absorbed substrate. -/
def c8g3row8 : Grid :=
  let st1 := agingStage (getCell c8Grid 8 5) 8 5 (⟨c8g3row7, 2, zeroRNG⟩ : AState)
  let g1 := gmod st1.g 8 5 fun c =>
    { c with nutrient := qadd (getCell c8Grid 8 5).nutrient kelpDef.substrate_absorb_rate }
  ({ st1 with g := g1 } : AState).g

/-! ### Cell-level invariants checked by C5 and C7 -/

/-- The amended two-kinds invariant: a cell that is not an Agent carries no
species, subtype or organism id and has nutrient 0.  (`age` and `spore_age`
are deliberately NOT constrained: the death writes leave them stale.) -/
def envClean (c : Cell) : Prop :=
  c.cell_type = AGENT ∨
    (c.species_id = none ∧ c.subtype = none ∧ c.agent_id = none ∧
      c.nutrient = 0)

/-- `envClean` at every position of a grid. -/
def ecg (g : Grid) : Prop := ∀ y x, envClean (getCell g y x)

/-- Every organism id carried by the cell is below the allocator value. -/
def idBound (n : ℕ) (c : Cell) : Prop :=
  c.agent_id = none ∨ c.agent_id.getD 0 < n

/-- `idBound n` at every position of a grid. -/
def ibg (n : ℕ) (g : Grid) : Prop := ∀ y x, idBound n (getCell g y x)

/-- Collapse the early-exit sum of the staged agent sub-rules. -/
def resS (s : AState ⊕ AState) : AState := Sum.elim id id s

/-- Frame property of one agent visit at `(y,x)`: every other position that
is not Water in the prior generation is left untouched. -/
def stageFrame (old : Grid) (y x : ℕ) (g g' : Grid) : Prop :=
  ∀ y' x', (y' ≠ y ∨ x' ≠ x) → (getCell old y' x').cell_type ≠ WATER →
    getCell g' y' x' = getCell g y' x'

/-- On the region `S`, positions holding an Agent in the prior generation
still hold an Agent-typed cell in `g`. -/
def agOK (old g : Grid) (S : ℕ → ℕ → Prop) : Prop :=
  ∀ y' x', S y' x' → (getCell old y' x').cell_type = AGENT →
    (getCell g y' x').cell_type = AGENT

/-- The invariant threaded through the environment pass: `envClean`
everywhere, and Agent-typed cells only at prior-generation Agent positions. -/
def EInv (old g : Grid) : Prop :=
  ∀ y x, envClean (getCell g y x) ∧
    ((getCell g y x).cell_type = AGENT → (getCell old y x).cell_type = AGENT)

/-- The id-allocation invariant threaded through the agent pass: every id in
the working grid and in the prior generation is below the allocator. -/
def JInv (old : Grid) (st : AState) : Prop :=
  ibg st.nid st.g ∧ ibg st.nid old

/-- The agent state after the stem visit of the kelp scenario, as a
function of the ambient stream. -/
def c8st7 (r : RNG) : AState :=
  lightStage kelpDef (getCell c8Grid 7 5) 10 7 5
    (agingStage (getCell c8Grid 7 5) 7 5 ⟨c8Grid, 2, r⟩)

/-- ... and after the root visit. -/
def c8st8 (r : RNG) : AState :=
  let st1 := agingStage (getCell c8Grid 8 5) 8 5
    (⟨c8g3row7, 2, { r with fIdx := r.fIdx + 1 }⟩ : AState)
  { st1 with g := gmod st1.g 8 5 fun c =>
      { c with nutrient := qadd (getCell c8Grid 8 5).nutrient kelpDef.substrate_absorb_rate } }

/-! ### Grid access lemmas -/

theorem length_gmod (g : Grid) (y x : ℕ) (f : Cell → Cell) :
    (gmod g y x f).length = g.length := by
  simp [gmod]

theorem getD_gmod_ne {g : Grid} {y x y' : ℕ} (f : Cell → Cell) (h : y' ≠ y) :
    (gmod g y x f).getD y' [] = g.getD y' [] := by
  rw [gmod, List.getD_eq_getElem?_getD, List.getElem?_set_ne (Ne.symm h),
    ← List.getD_eq_getElem?_getD]

theorem getCell_gmod_self {g : Grid} {y x : ℕ} (f : Cell → Cell)
    (hy : y < g.length) (hx : x < (g.getD y []).length) :
    getCell (gmod g y x f) y x = f (getCell g y x) := by
  simp only [getCell, gmod, List.getD_eq_getElem?_getD] at *
  rw [List.getElem?_set_self hy, Option.getD_some, List.getElem?_set_self hx,
    Option.getD_some]

theorem getCell_gmod_ne {g : Grid} {y x y' x' : ℕ} (f : Cell → Cell)
    (h : y' ≠ y ∨ x' ≠ x) :
    getCell (gmod g y x f) y' x' = getCell g y' x' := by
  rcases h with h | h
  · simp only [getCell, gmod, List.getD_eq_getElem?_getD]
    rw [List.getElem?_set_ne (Ne.symm h)]
  · by_cases hy : y' = y
    · subst hy
      by_cases hlt : y' < g.length
      · simp only [getCell, gmod, List.getD_eq_getElem?_getD] at *
        rw [List.getElem?_set_self hlt, Option.getD_some,
          List.getElem?_set_ne (Ne.symm h)]
      · rw [gmod, List.set_eq_of_length_le (Nat.le_of_not_lt hlt)]
    · simp only [getCell, gmod, List.getD_eq_getElem?_getD]
      rw [List.getElem?_set_ne (Ne.symm hy)]

theorem getD_mem_of_lt {α : Type} {l : List α} {n : ℕ} {d : α}
    (h : n < l.length) : l.getD n d ∈ l := by
  rw [List.getD_eq_getElem?_getD, List.getElem?_eq_getElem h, Option.getD_some]
  exact List.getElem_mem h

theorem getD_of_le {α : Type} {l : List α} {n : ℕ} {d : α}
    (h : l.length ≤ n) : l.getD n d = d := by
  rw [List.getD_eq_getElem?_getD, List.getElem?_eq_none h, Option.getD_none]

theorem gridWF_gmod {W H : ℕ} {g : Grid} (y x : ℕ) (f : Cell → Cell)
    (h : gridWF W H g) : gridWF W H (gmod g y x f) := by
  obtain ⟨hlen, hrows⟩ := h
  by_cases hy : y < g.length
  · refine ⟨by simpa [gmod] using hlen, ?_⟩
    intro r hr
    rcases List.mem_or_eq_of_mem_set hr with hr | rfl
    · exact hrows r hr
    · simpa using hrows _ (getD_mem_of_lt hy)
  · rw [gmod, List.set_eq_of_length_le (Nat.le_of_not_lt hy)]
    exact ⟨hlen, hrows⟩

/-- Bridge: an everywhere-property of `getCell` follows from the default cell
having it and every listed cell having it. -/
theorem cellPred_of_forall_mem {P : Cell → Prop} {g : Grid}
    (hd : P waterCell) (h : ∀ r ∈ g, ∀ c ∈ r, P c) :
    ∀ y x, P (getCell g y x) := by
  intro y x
  by_cases hy : y < g.length
  · by_cases hx : x < (g.getD y []).length
    · exact h _ (getD_mem_of_lt hy) _ (getD_mem_of_lt hx)
    · rw [getCell, getD_of_le (Nat.le_of_not_lt hx)]; exact hd
  · rw [getCell, getD_of_le (α := List Cell) (Nat.le_of_not_lt hy)]
    simpa using hd

/-! ### The evaluable rational operations agree with the library ones -/

theorem mul_den_eq (a : ℚ) (ha : (a.den : ℚ) ≠ 0) :
    a * (a.den : ℚ) = (a.num : ℚ) := by
  nth_rewrite 1 [← Rat.num_div_den a]
  exact div_mul_cancel₀ _ ha

theorem den_cast_ne_zero (a : ℚ) : (a.den : ℚ) ≠ 0 := by
  exact_mod_cast a.den_nz

theorem qadd_eq (a b : ℚ) : qadd a b = a + b := by
  have ha := den_cast_ne_zero a
  have hb := den_cast_ne_zero b
  rw [qadd, Rat.mkRat_eq_div]
  push_cast
  rw [div_eq_iff (by simp [ha, hb])]
  calc (a.num : ℚ) * b.den + (b.num : ℚ) * a.den
      = a * a.den * b.den + b * b.den * a.den := by
        rw [mul_den_eq a ha, mul_den_eq b hb]
    _ = (a + b) * ((a.den : ℚ) * b.den) := by ring

theorem qsub_eq (a b : ℚ) : qsub a b = a - b := by
  have ha := den_cast_ne_zero a
  have hb := den_cast_ne_zero b
  rw [qsub, Rat.mkRat_eq_div]
  push_cast
  rw [div_eq_iff (by simp [ha, hb])]
  calc (a.num : ℚ) * b.den - (b.num : ℚ) * a.den
      = a * a.den * b.den - b * b.den * a.den := by
        rw [mul_den_eq a ha, mul_den_eq b hb]
    _ = (a - b) * ((a.den : ℚ) * b.den) := by ring

theorem qmul_eq (a b : ℚ) : qmul a b = a * b := by
  have ha := den_cast_ne_zero a
  have hb := den_cast_ne_zero b
  rw [qmul, Rat.mkRat_eq_div]
  push_cast
  rw [div_eq_iff (by simp [ha, hb])]
  calc (a.num : ℚ) * b.num
      = (a * a.den) * (b * b.den) := by rw [mul_den_eq a ha, mul_den_eq b hb]
    _ = a * b * ((a.den : ℚ) * b.den) := by ring

theorem qfract_nonneg (q : ℚ) : 0 ≤ qfract q := by
  rw [qfract, Rat.mkRat_eq_div]
  have hd : (0 : ℚ) < (q.den : ℚ) := by exact_mod_cast q.pos
  have hn : (0 : ℤ) ≤ q.num % (q.den : ℤ) :=
    Int.emod_nonneg _ (by exact_mod_cast q.den_nz)
  exact div_nonneg (by exact_mod_cast hn) hd.le

theorem qfract_lt_one (q : ℚ) : qfract q < 1 := by
  rw [qfract, Rat.mkRat_eq_div]
  have hd : (0 : ℚ) < (q.den : ℚ) := by exact_mod_cast q.pos
  have hn : q.num % (q.den : ℤ) < (q.den : ℤ) :=
    Int.emod_lt_of_pos _ (by exact_mod_cast q.pos)
  rw [div_lt_one hd]
  exact_mod_cast hn

theorem nextFloat_nonneg (r : RNG) : 0 ≤ (nextFloat r).1 := qfract_nonneg _

theorem nextFloat_lt_one (r : RNG) : (nextFloat r).1 < 1 := qfract_lt_one _

/-! ### C1: the spore-drift `break` aborts the whole row scan -/

/-- **C1.** In `c1Sim` the spore at `(0,0)` drifts successfully, and the
`break` on line 295 of `simulation.py` then exits the `for x` loop: the live
stem at `(2,0)` of the prior generation is never visited, so its aging and
light-absorption sub-rules are skipped (its age stays 5 and its nutrient
stays 1, where the claim requires age 6 and an increased nutrient), while
the drifted spore sits at `(1,0)`. -/
theorem spore_drift_break_skips_rest_of_row :
    (getCell (step c1Sim).grid 0 0).cell_type = WATER ∧
    (getCell (step c1Sim).grid 0 1).cell_type = AGENT ∧
    (getCell (step c1Sim).grid 0 1).spore_age = 1 ∧
    (getCell (step c1Sim).grid 0 2) = stemCellAged := by
  decide

/-! ### C3: spore expiry is skipped in the step of a successful drift -/

/-- **C3.** The spore of `c3Sim` has `spore_age = spore_life = 15`. In the
step where its `sporeAge` first exceeds `spore_life` it drifts, the `break`
skips the expiry check, and it survives that step with `spore_age = 16 > 15`;
it is only removed one step later. -/
theorem spore_expiry_missed_on_drift_step :
    ((getCell (step c3Sim).grid 0 1).cell_type = AGENT ∧
      (getCell (step c3Sim).grid 0 1).subtype = some SUBTYPE_SPORE ∧
      (getCell (step c3Sim).grid 0 1).spore_age = 16) ∧
    (getCell (step (step c3Sim)).grid 0 1).cell_type = WATER := by
  decide

/-! ### C2 counterexample: two sands can merge into one destination -/

/-- **C2 counterexample.** `c2Grid` contains no Lava and two Sand cells;
both diagonal slips pick the shared Water destination `(1,1)`, so the
environment pass of one step leaves a single Sand cell: sand count drops
from 2 to 1, refuting preservation of the total Sand count. -/
theorem sand_gravity_merges_two_sands :
    ((update_environment c2Grid c2Grid 3 2).flatten.filter
      (fun c => c.cell_type = SAND)).length = 1 ∧
    (c2Grid.flatten.filter (fun c => c.cell_type = SAND)).length = 2 ∧
    (∀ c ∈ c2Grid.flatten, c.cell_type ≠ LAVA) := by
  decide

/-! ### C4 counterexample: spread lava can be born at temperature ≤ 0 -/

/-- **C4 counterexample.** In `c4Sim` the Lava cell at `(0,0)` has
temperature 15; it cools to 10 and survives, and its Water neighbour
`(1,0)` becomes Lava at temperature `10 − 10 = 0`: after the step the grid
holds a Lava cell with non-positive temperature. -/
theorem lava_spread_can_reach_nonpositive_temp :
    (getCell (step c4Sim).grid 0 1).cell_type = LAVA ∧
    (getCell (step c4Sim).grid 0 1).temp = some 0 := by
  decide

/-! ### C5 counterexample: death does not clear the age field -/

/-- **C5 counterexample.** The root of `c5Sim` loses its substrate during
the step and reverts to Water, but the death write (lines 166-171 of
`simulation.py`) never clears `age`: the resulting Water cell carries the
incremented agent age 1, an agent-category field value on an environment
cell. -/
theorem dead_root_leaves_nonzero_age_on_water :
    (getCell (step c5Sim).grid 0 0).cell_type = WATER ∧
    (getCell (step c5Sim).grid 0 0).age = 1 := by
  decide

/-! ### C9: deterministic first-fit order of sand gravity -/

/-- **C9.** Sand gravity is deterministic first-fit in the fixed order
down, down-left, down-right, against the prior generation: for every Sand
cell of the prior generation, `sandUpdate` moves the sand to the first of
the three destinations that is Water in the prior generation (origin
becomes Water, destination becomes Sand) and leaves the grid alone when
none is Water; and in the concrete scenario `c9Sim` (a single Sand cell at
`(3,3)` with Water everywhere below and around, any random stream) one
`step()` leaves `(3,3)` Water and `(3,4)` Sand. -/
theorem sand_gravity_first_fit_order :
    (∀ (old : Grid) (W : ℕ) (g : Grid) (y x : ℕ),
      (getCell old y x).cell_type = SAND →
      ((getCell old (y + 1) x).cell_type = WATER →
        sandUpdate old W g (y, x) =
          gmod (gmod g y x fun c => { c with cell_type := WATER }) (y + 1) x
            (fun c => { c with cell_type := SAND, temp := none })) ∧
      ((getCell old (y + 1) x).cell_type ≠ WATER → 0 < x →
        (getCell old (y + 1) (x - 1)).cell_type = WATER →
        sandUpdate old W g (y, x) =
          gmod (gmod g y x fun c => { c with cell_type := WATER }) (y + 1) (x - 1)
            (fun c => { c with cell_type := SAND, temp := none })) ∧
      ((getCell old (y + 1) x).cell_type ≠ WATER →
        ¬(0 < x ∧ (getCell old (y + 1) (x - 1)).cell_type = WATER) →
        x + 1 < W → (getCell old (y + 1) (x + 1)).cell_type = WATER →
        sandUpdate old W g (y, x) =
          gmod (gmod g y x fun c => { c with cell_type := WATER }) (y + 1) (x + 1)
            (fun c => { c with cell_type := SAND, temp := none })) ∧
      ((getCell old (y + 1) x).cell_type ≠ WATER →
        ¬(0 < x ∧ (getCell old (y + 1) (x - 1)).cell_type = WATER) →
        ¬(x + 1 < W ∧ (getCell old (y + 1) (x + 1)).cell_type = WATER) →
        sandUpdate old W g (y, x) = g)) ∧
    (∀ r : RNG,
      (getCell (step (c9Sim r)).grid 3 3).cell_type = WATER ∧
      (getCell (step (c9Sim r)).grid 4 3).cell_type = SAND) := by
  constructor
  · intro old W g y x hs
    refine ⟨fun hw => ?_, fun hnw hx hdl => ?_, fun hnw hndl hxr hdr => ?_,
      fun hnw hndl hndr => ?_⟩
    · simp [sandUpdate, hs, hw]
    · simp [sandUpdate, hs, hnw, hx, hdl]
    · simp [sandUpdate, hs, hnw, hndl, hxr, hdr]
    · simp [sandUpdate, hs, hnw, hndl, hndr]
  · intro r
    exact ⟨rfl, rfl⟩

/-- Closed witness for the universally quantified parts of
`sand_gravity_first_fit_order`, checked on `c2Grid` (a Sand cell at `(0,0)`
whose only free destination is down-right) and on `c9Sim zeroRNG`. -/
theorem sand_gravity_first_fit_order_witness :
    sandUpdate c2Grid 3 c2Grid (0, 0) =
      gmod (gmod c2Grid 0 0 fun c => { c with cell_type := WATER }) 1 1
        (fun c => { c with cell_type := SAND, temp := none }) ∧
    (getCell (step (c9Sim zeroRNG)).grid 3 3).cell_type = WATER := by
  refine ⟨?_, (sand_gravity_first_fit_order.2 zeroRNG).1⟩
  exact ((sand_gravity_first_fit_order.1 c2Grid 3 c2Grid 0 0 (by decide)).2.2.1
    (by decide) (by decide) (by decide) (by decide))

/-! ### C10: `plant_seed` checks only the cell below -/

/-- No species can attach to Water. -/
theorem no_species_attaches_to_water (sid : ℕ) :
    (species_defs sid).can_attach WATER = false := by
  match sid with
  | 0 => decide
  | 1 => decide
  | 2 => decide
  | 3 => decide
  | n + 4 => exact show seaweedDef.can_attach WATER = false by decide

/-- **C10.** `plant_seed` checks only the cell type directly below `(x,y)`:
whenever that cell is attachable for the species, it overwrites `(x,y)`
with a Root and returns success no matter what `(x,y)` currently holds
(any environment substance or a living agent cell, replaced without any
death rule), and on the bottom row (`y = height − 1`) the missing
below-cell is treated as Water, so planting fails there for every species
id. -/
theorem plant_seed_checks_only_below :
    (∀ (s : Sim) (x y sid : ℕ),
      y + 1 < s.height →
      (species_defs sid).can_attach (getCell s.grid (y + 1) x).cell_type = true →
      (plant_seed s x y sid).1 = true ∧
      (y < s.grid.length → x < (s.grid.getD y []).length →
        getCell (plant_seed s x y sid).2.grid y x =
          { getCell s.grid y x with
            cell_type := AGENT, species_id := some sid,
            subtype := some SUBTYPE_ROOT,
            nutrient := (species_defs sid).initial_nutrient, age := 0,
            agent_id := some s.next_agent_id })) ∧
    (∀ (s : Sim) (x sid : ℕ), 1 ≤ s.height →
      (plant_seed s x (s.height - 1) sid).1 = false ∧
      (plant_seed s x (s.height - 1) sid).2 = s) := by
  constructor
  · intro s x y sid hy hatt
    constructor
    · simp only [plant_seed]
      rw [if_pos hy, hatt, if_pos rfl]
    · intro hyl hxl
      simp only [plant_seed]
      rw [if_pos hy, hatt, if_pos rfl]
      dsimp only
      by_cases hstem : 1 ≤ y ∧ (getCell (gmod s.grid y x fun c =>
          { c with cell_type := AGENT, species_id := some sid,
                   subtype := some SUBTYPE_ROOT,
                   nutrient := (species_defs sid).initial_nutrient, age := 0,
                   agent_id := some s.next_agent_id }) (y - 1) x).cell_type = WATER
      · rw [if_pos hstem]
        rw [getCell_gmod_ne _ (Or.inl (by omega))]
        exact getCell_gmod_self _ hyl hxl
      · rw [if_neg hstem]
        exact getCell_gmod_self _ hyl hxl
  · intro s x sid hh
    have hby : ¬ (s.height - 1 + 1 < s.height) := by omega
    constructor
    · simp only [plant_seed]
      rw [if_neg hby, no_species_attaches_to_water, if_neg (by simp)]
    · simp only [plant_seed]
      rw [if_neg hby, no_species_attaches_to_water, if_neg (by simp)]

/-- Closed witness for `plant_seed_checks_only_below`: on `c4Sim` (whose
only two cells are Lava and Water on the bottom row) planting fails for
seagrass at the bottom row, and on `c8Sim`-style ground planting over Rock
succeeds while destroying whatever sits at the target. -/
theorem plant_seed_checks_only_below_witness :
    (plant_seed (mkSim 10 10 zeroRNG) 5 8 SPECIES_KELP).1 = true ∧
    (plant_seed c4Sim 0 0 SPECIES_SEAGRASS).1 = false ∧
    (plant_seed c4Sim 0 0 SPECIES_SEAGRASS).2 = c4Sim := by
  refine ⟨((plant_seed_checks_only_below.1 (mkSim 10 10 zeroRNG) 5 8 SPECIES_KELP
    (by decide) (by decide)).1), ?_, ?_⟩
  · exact (plant_seed_checks_only_below.2 c4Sim 0 SPECIES_SEAGRASS (by decide)).1
  · exact (plant_seed_checks_only_below.2 c4Sim 0 SPECIES_SEAGRASS (by decide)).2

/-! ### Symbolic evaluation lemmas for the agent pass -/

/-- A reproduction chance of zero never fires: the draw lies in `[0,1)`. -/
theorem reproStage_not_fired {old : Grid} {spec : MarinePlantSpecies}
    {cell : Cell} {W H y x : ℕ} {st : AState}
    (h : spec.reproduce_chance (getCell st.g y x).age = 0) :
    reproStage old spec cell W H y x st = { st with rng := (nextFloat st.rng).2 } := by
  simp only [reproStage, h]
  rw [if_neg (not_lt.mpr (nextFloat_nonneg st.rng))]

/-- One visit of a non-root, non-spore agent cell that neither dies nor
reproduces nor grows: only aging and light absorption apply, plus one
consumed uniform draw. -/
theorem processAgent_quiet_nonroot
    {old : Grid} {W H : ℕ} {cur : Current} {y x : ℕ} {st st3 : AState}
    {cell : Cell} {spec : MarinePlantSpecies} {g3 : Grid}
    (hcell : getCell old y x = cell)
    (hspec : species_defs (cell.species_id.getD 0) = spec)
    (hst3 : lightStage spec cell H y x (agingStage cell y x st) = st3)
    (hrng : st3.rng = st.rng)
    (hg3 : st3.g = g3)
    (hag : cell.cell_type = AGENT)
    (hroot : ¬ cell.subtype = some SUBTYPE_ROOT)
    (hspore : ¬ cell.subtype = some SUBTYPE_SPORE)
    (hdeath : ¬ (spec.max_age < (getCell g3 y x).age ∨
      (getCell g3 y x).nutrient < 0))
    (hchance : spec.reproduce_chance (getCell g3 y x).age = 0)
    (hgrow : ¬ spec.growth_threshold ≤ (getCell g3 y x).nutrient) :
    processAgent old W H cur y x st =
      ({ st3 with rng := (nextFloat st.rng).2 }, false) := by
  rw [← hg3] at hdeath hchance hgrow
  simp only [processAgent, hcell, hspec]
  rw [if_pos hag]
  simp only [rootStage]
  rw [if_neg hroot]
  try dsimp only
  simp only [hst3, deathStage]
  rw [if_neg hdeath]
  try dsimp only
  rw [reproStage_not_fired hchance]
  simp only [growthStage]
  try dsimp only
  rw [if_neg hgrow]
  simp only [sporeStage]
  rw [if_neg hspore]
  try dsimp only
  rw [hrng]

/-- One visit of an attached root cell that absorbs substrate and is
otherwise quiet. -/
theorem processAgent_quiet_root
    {old : Grid} {W H : ℕ} {cur : Current} {y x : ℕ} {st st3 : AState}
    {cell : Cell} {spec : MarinePlantSpecies} {g3 : Grid}
    (hcell : getCell old y x = cell)
    (hspec : species_defs (cell.species_id.getD 0) = spec)
    (hst3 : { agingStage cell y x st with
      g := gmod (agingStage cell y x st).g y x fun c =>
        { c with nutrient := qadd cell.nutrient spec.substrate_absorb_rate } } = st3)
    (hrng : st3.rng = st.rng)
    (hg3 : st3.g = g3)
    (hag : cell.cell_type = AGENT)
    (hroot : cell.subtype = some SUBTYPE_ROOT)
    (hby : y + 1 < H)
    (hatt : spec.can_attach (getCell old (y + 1) x).cell_type = true)
    (hnolight : ¬ (cell.subtype = some SUBTYPE_STEM ∨
      cell.subtype = some SUBTYPE_REPRO ∨ cell.species_id = some SPECIES_CORAL))
    (hdeath : ¬ (spec.max_age < (getCell g3 y x).age ∨
      (getCell g3 y x).nutrient < 0))
    (hchance : spec.reproduce_chance (getCell g3 y x).age = 0)
    (hgrow : ¬ spec.growth_threshold ≤ (getCell g3 y x).nutrient) :
    processAgent old W H cur y x st =
      ({ st3 with rng := (nextFloat st.rng).2 }, false) := by
  rw [← hg3] at hdeath hchance hgrow
  have hspore : ¬ cell.subtype = some SUBTYPE_SPORE := by
    rw [hroot]; decide
  simp only [processAgent, hcell, hspec]
  rw [if_pos hag]
  simp only [rootStage]
  rw [if_pos hroot, if_pos hby, if_pos hatt]
  try dsimp only
  simp only [hst3, lightStage]
  rw [if_neg hnolight]
  simp only [deathStage]
  rw [if_neg hdeath]
  try dsimp only
  rw [reproStage_not_fired hchance]
  simp only [growthStage]
  try dsimp only
  rw [if_neg hgrow]
  simp only [sporeStage]
  rw [if_neg hspore]
  try dsimp only
  rw [hrng]

theorem agentRowGo_cons_skip {old : Grid} {W H : ℕ} {cur : Current}
    {y x : ℕ} {xs : List ℕ} {st : AState}
    (h : (getCell old y x).cell_type ≠ AGENT) :
    agentRowGo old W H cur y (x :: xs) st = agentRowGo old W H cur y xs st := by
  simp [agentRowGo, processAgent, h]

theorem agentRowGo_cons_go {old : Grid} {W H : ℕ} {cur : Current}
    {y x : ℕ} {xs : List ℕ} {st st' : AState}
    (h : processAgent old W H cur y x st = (st', false)) :
    agentRowGo old W H cur y (x :: xs) st = agentRowGo old W H cur y xs st' := by
  simp [agentRowGo, h]

theorem agentRowGo_no_agents {old : Grid} {W H : ℕ} {cur : Current}
    {y : ℕ} {xs : List ℕ} (st : AState)
    (h : ∀ x ∈ xs, (getCell old y x).cell_type ≠ AGENT) :
    agentRowGo old W H cur y xs st = st := by
  induction xs with
  | nil => rfl
  | cons a as ih =>
    rw [agentRowGo_cons_skip (h a (by simp))]
    exact ih fun x hx => h x (by simp [hx])

set_option maxRecDepth 4000 in
set_option maxHeartbeats 1000000 in
/-- The kelp-seed scenario counts, for every random stream: the stem and
root are too young to reproduce and too poor to grow, so after one step the
latest tallies report 2 kelp cells forming 1 organism. -/
theorem c8_counts_after_one_step (r : RNG) :
    get_latest_counts (step (c8Sim r)) = some ([0, 2, 0, 0], [0, 1, 0, 0]) := by
  have h75 := @processAgent_quiet_nonroot c8Grid 10 10 ⟨0, 0, 0⟩ 7 5
    ⟨c8Grid, 2, r⟩ (c8st7 r) (getCell c8Grid 7 5) kelpDef c8g3row7
    rfl rfl rfl rfl rfl (by decide) (by decide) (by decide) (by decide)
    (by decide) (by decide)
  have hrow7 : agentRowGo c8Grid 10 10 ⟨0, 0, 0⟩ 7 [0,1,2,3,4,5,6,7,8,9]
      ⟨c8Grid, 2, r⟩ = ⟨c8g3row7, 2, { r with fIdx := r.fIdx + 1 }⟩ := by
    rw [agentRowGo_cons_skip (by decide), agentRowGo_cons_skip (by decide),
      agentRowGo_cons_skip (by decide), agentRowGo_cons_skip (by decide),
      agentRowGo_cons_skip (by decide), agentRowGo_cons_go h75]
    exact agentRowGo_no_agents _ (by decide)
  have h85 := @processAgent_quiet_root c8Grid 10 10 ⟨0, 0, 0⟩ 8 5
    ⟨c8g3row7, 2, { r with fIdx := r.fIdx + 1 }⟩ (c8st8 r)
    (getCell c8Grid 8 5) kelpDef c8g3row8
    rfl rfl rfl rfl rfl (by decide) (by decide) (by decide) (by decide)
    (by decide) (by decide) (by decide) (by decide)
  have hrow8 : agentRowGo c8Grid 10 10 ⟨0, 0, 0⟩ 8 [0,1,2,3,4,5,6,7,8,9]
      ⟨c8g3row7, 2, { r with fIdx := r.fIdx + 1 }⟩ =
      ⟨c8g3row8, 2, { r with fIdx := r.fIdx + 1 + 1 }⟩ := by
    rw [agentRowGo_cons_skip (by decide), agentRowGo_cons_skip (by decide),
      agentRowGo_cons_skip (by decide), agentRowGo_cons_skip (by decide),
      agentRowGo_cons_skip (by decide), agentRowGo_cons_go h85]
    exact agentRowGo_no_agents _ (by decide)
  have hA : agentPass c8Grid 10 10 ⟨0, 0, 0⟩ ⟨c8Grid, 2, r⟩ =
      agentRowGo c8Grid 10 10 ⟨0, 0, 0⟩ 9 (List.range 10)
        (agentRowGo c8Grid 10 10 ⟨0, 0, 0⟩ 8 (List.range 10)
          (agentRowGo c8Grid 10 10 ⟨0, 0, 0⟩ 7 (List.range 10)
            ⟨c8Grid, 2, r⟩)) := rfl
  rw [show (List.range 10) = [0,1,2,3,4,5,6,7,8,9] from rfl] at hA
  rw [hrow7, hrow8, agentRowGo_no_agents _ (by decide)] at hA
  have hcc : (c8Sim r).cell_counts = [] := rfl
  have hic : (c8Sim r).indiv_counts = [] := rfl
  have hw : (c8Sim r).width = 10 := rfl
  have hh : (c8Sim r).height = 10 := rfl
  have hcur : (c8Sim r).current = ⟨0, 0, 0⟩ := rfl
  have hnid : (c8Sim r).next_agent_id = 2 := rfl
  have hrng : (c8Sim r).rng = r := rfl
  have hg : (c8Sim r).grid = c8Grid := rfl
  have henv : update_environment c8Grid c8Grid 10 10 = c8Grid := by decide
  simp only [step, get_latest_counts, hcc, hic, hw, hh, hcur, hnid, hrng, hg,
    henv, hA, List.nil_append]
  decide

/-! ### C8: the `plant_seed` contract and the kelp-seed scenario -/

/-- **C8.** `plant_seed` fails (and is then a strict no-op) exactly when the
species cannot attach to the cell type below the target; on success it
returns `true`, never advances time or the recorded histories, and writes a
Stem sharing the root id directly above exactly when `y ≥ 1` and that cell
is Water (otherwise no cell besides `(x,y)` changes).  In the concrete
scenario, `plant_seed(5, 8, SPECIES_KELP)` on the 10×10 rock-bottom grid
succeeds, writes the root at `(5,8)` and stem at `(5,7)` sharing fresh
organism id 1, and after one `step()` (whatever the random stream)
`latestCounts()` reports kelp cell count 2 and organism count 1. -/
theorem plant_seed_contract_and_scenario :
    (∀ (s : Sim) (x y sid : ℕ),
      ((plant_seed s x y sid).1 = false ↔
        (species_defs sid).can_attach (if y + 1 < s.height then
          (getCell s.grid (y + 1) x).cell_type else WATER) = false) ∧
      ((plant_seed s x y sid).1 = false → (plant_seed s x y sid).2 = s) ∧
      (plant_seed s x y sid).2.time_step = s.time_step ∧
      (plant_seed s x y sid).2.cell_counts = s.cell_counts ∧
      (plant_seed s x y sid).2.indiv_counts = s.indiv_counts ∧
      ((species_defs sid).can_attach (if y + 1 < s.height then
          (getCell s.grid (y + 1) x).cell_type else WATER) = true →
        (1 ≤ y → (getCell s.grid (y - 1) x).cell_type = WATER →
          y - 1 < s.grid.length → x < (s.grid.getD (y - 1) []).length →
          getCell (plant_seed s x y sid).2.grid (y - 1) x =
            { getCell s.grid (y - 1) x with
              cell_type := AGENT, species_id := some sid,
              subtype := some SUBTYPE_STEM,
              nutrient := qmul (species_defs sid).initial_nutrient (mkRat 1 2),
              age := 0, agent_id := some s.next_agent_id }) ∧
        (∀ y' x', ¬ (y' = y ∧ x' = x) → ¬ (y' = y - 1 ∧ x' = x ∧ 1 ≤ y) →
          getCell (plant_seed s x y sid).2.grid y' x' = getCell s.grid y' x'))) ∧
    (∀ r : RNG,
      (plant_seed (mkSim 10 10 r) 5 8 SPECIES_KELP).1 = true ∧
      getCell (c8Sim r).grid 8 5 = kelpRootCell ∧
      getCell (c8Sim r).grid 7 5 = kelpStemCell ∧
      (c8Sim r).next_agent_id = 2 ∧
      get_latest_counts (step (c8Sim r)) = some ([0, 2, 0, 0], [0, 1, 0, 0])) := by
  constructor
  · intro s x y sid
    by_cases hatt : (species_defs sid).can_attach (if y + 1 < s.height then
        (getCell s.grid (y + 1) x).cell_type else WATER) = true
    · have h1 : (plant_seed s x y sid).1 = true := by
        simp only [plant_seed]
        rw [hatt, if_pos rfl]
      refine ⟨by simp [h1, hatt], by simp [h1], ?_, ?_, ?_, ?_⟩
      · simp only [plant_seed]
        rw [hatt, if_pos rfl]
      · simp only [plant_seed]
        rw [hatt, if_pos rfl]
      · simp only [plant_seed]
        rw [hatt, if_pos rfl]
      · intro _
        constructor
        · intro h1y hwater hylen hxlen
          simp only [plant_seed]
          rw [hatt, if_pos rfl]
          dsimp only
          have hne : (y - 1 : ℕ) ≠ y := by omega
          rw [if_pos ⟨h1y, by rw [getCell_gmod_ne _ (Or.inl hne)]; exact hwater⟩]
          rw [getCell_gmod_self _ (by rw [length_gmod]; exact hylen)
            (by rw [getD_gmod_ne _ hne]; exact hxlen)]
          rw [getCell_gmod_ne _ (Or.inl hne)]
        · intro y' x' hne1 hne2
          simp only [plant_seed]
          rw [hatt, if_pos rfl]
          dsimp only
          by_cases hstem : 1 ≤ y ∧ (getCell (gmod s.grid y x fun c =>
              { c with cell_type := AGENT, species_id := some sid,
                       subtype := some SUBTYPE_ROOT,
                       nutrient := (species_defs sid).initial_nutrient, age := 0,
                       agent_id := some s.next_agent_id }) (y - 1) x).cell_type = WATER
          · rw [if_pos hstem]
            rw [getCell_gmod_ne _ (by
              rcases Decidable.em (y' = y - 1) with h | h
              · right
                intro hx'
                exact hne2 ⟨h, hx', hstem.1⟩
              · exact Or.inl h)]
            rw [getCell_gmod_ne _ (by
              rcases Decidable.em (y' = y) with h | h
              · right
                intro hx'
                exact hne1 ⟨h, hx'⟩
              · exact Or.inl h)]
          · rw [if_neg hstem]
            rw [getCell_gmod_ne _ (by
              rcases Decidable.em (y' = y) with h | h
              · right
                intro hx'
                exact hne1 ⟨h, hx'⟩
              · exact Or.inl h)]
    · have hattf : (species_defs sid).can_attach (if y + 1 < s.height then
          (getCell s.grid (y + 1) x).cell_type else WATER) = false := by
        simpa using hatt
      have h1 : plant_seed s x y sid = (false, s) := by
        simp only [plant_seed]
        rw [hattf, if_neg (by simp)]
      refine ⟨by simp [h1, hattf], by simp [h1], by simp [h1], by simp [h1],
        by simp [h1], ?_⟩
      intro hc
      rw [hc] at hattf
      cases hattf
  · intro r
    exact ⟨rfl, rfl, rfl, rfl, c8_counts_after_one_step r⟩

/-- Closed witness: the contract applied to the concrete scenario grid
(failure at the bottom row of `c4Sim`, and the stem of the kelp scenario). -/
theorem plant_seed_contract_witness :
    ((plant_seed c4Sim 0 0 SPECIES_SEAGRASS).1 = false ↔
      (species_defs SPECIES_SEAGRASS).can_attach (if 0 + 1 < c4Sim.height then
        (getCell c4Sim.grid (0 + 1) 0).cell_type else WATER) = false) ∧
    getCell (c8Sim zeroRNG).grid 7 5 = kelpStemCell := by
  exact ⟨(plant_seed_contract_and_scenario.1 c4Sim 0 0 SPECIES_SEAGRASS).1,
    (plant_seed_contract_and_scenario.2 zeroRNG).2.2.1⟩

/-! ### C6: bit-for-bit reproducibility of seeded runs -/

/-- **C6.** Every randomized decision of the rule passes is drawn from the
deterministic stream fixed by the seed, so the whole run is a pure function
of (seed, width, height, initial grid, call sequence): two runs with equal
seeds, equal initial grids and equal call sequences produce byte-identical
final states, including the full grid and both per-step counter
histories. -/
theorem fixed_seed_runs_byte_identical
    (seed₁ seed₂ W₁ W₂ H₁ H₂ : ℕ) (g₁ g₂ : Grid) (cs₁ cs₂ : List SimCall)
    (hseed : seed₁ = seed₂) (hW : W₁ = W₂) (hH : H₁ = H₂) (hg : g₁ = g₂)
    (hcs : cs₁ = cs₂) :
    applyCalls { mkSeededSim W₁ H₁ seed₁ with grid := g₁ } cs₁ =
      applyCalls { mkSeededSim W₂ H₂ seed₂ with grid := g₂ } cs₂ ∧
    (applyCalls { mkSeededSim W₁ H₁ seed₁ with grid := g₁ } cs₁).grid =
      (applyCalls { mkSeededSim W₂ H₂ seed₂ with grid := g₂ } cs₂).grid ∧
    (applyCalls { mkSeededSim W₁ H₁ seed₁ with grid := g₁ } cs₁).cell_counts =
      (applyCalls { mkSeededSim W₂ H₂ seed₂ with grid := g₂ } cs₂).cell_counts ∧
    (applyCalls { mkSeededSim W₁ H₁ seed₁ with grid := g₁ } cs₁).indiv_counts =
      (applyCalls { mkSeededSim W₂ H₂ seed₂ with grid := g₂ } cs₂).indiv_counts := by
  subst hseed hW hH hg hcs
  exact ⟨rfl, rfl, rfl, rfl⟩

/-- Closed witness: two independent 2-step runs of a 3×2 seeded world are
byte-identical. -/
theorem fixed_seed_runs_byte_identical_witness :
    (applyCalls { mkSeededSim 3 2 7 with grid := c2Grid }
        [SimCall.stepOnce, SimCall.stepOnce]).grid =
      (applyCalls { mkSeededSim 3 2 7 with grid := c2Grid }
        [SimCall.stepOnce, SimCall.stepOnce]).grid :=
  (fixed_seed_runs_byte_identical 7 7 3 3 2 2 c2Grid c2Grid
    [SimCall.stepOnce, SimCall.stepOnce] [SimCall.stepOnce, SimCall.stepOnce]
    rfl rfl rfl rfl rfl).2.1

/-! ### Counting cells, and how `gmod` changes counts -/

/-- Number of cells of one cell type in the whole grid. -/
def countType (g : Grid) (t : ℕ) : ℕ :=
  (g.flatten.filter fun c => c.cell_type = t).length

theorem filter_length_set {α : Type} (p : α → Bool) :
    ∀ (l : List α) (i : ℕ) (a d : α), i < l.length →
    ((l.set i a).filter p).length + (if p (l.getD i d) then 1 else 0) =
      (l.filter p).length + (if p a then 1 else 0) := by
  intro l
  induction l with
  | nil => intro i a d h; simp at h
  | cons b bs ih =>
    intro i a d h
    match i with
    | 0 =>
      simp only [List.set, List.getD, List.filter]
      cases hpa : p a <;> cases hpb : p b <;> simp [hpa, hpb]
    | n + 1 =>
      simp only [List.set, List.getD_cons_succ, List.filter]
      have hrec := ih n a d (by simpa using h)
      simp only [List.getD_eq_getElem?_getD] at hrec
      cases hpb : p b <;> simp [hpb] <;> omega

theorem filter_length_flatten_set (p : Cell → Bool) :
    ∀ (g : Grid) (y : ℕ) (row : List Cell), y < g.length →
    (((g.set y row).flatten.filter p).length + ((g.getD y []).filter p).length =
      (g.flatten.filter p).length + (row.filter p).length) := by
  intro g
  induction g with
  | nil => intro y row h; simp at h
  | cons r rs ih =>
    intro y row h
    match y with
    | 0 => simp only [List.set, List.getD, List.flatten]; simp; omega
    | n + 1 =>
      simp only [List.set, List.getD_cons_succ, List.flatten_cons,
        List.filter_append, List.length_append]
      have := ih n row (by simpa using h)
      omega

theorem countType_gmod {g : Grid} {y x : ℕ} (f : Cell → Cell) (t : ℕ)
    (hy : y < g.length) (hx : x < (g.getD y []).length) :
    countType (gmod g y x f) t + (if (getCell g y x).cell_type = t then 1 else 0) =
      countType g t + (if (f (getCell g y x)).cell_type = t then 1 else 0) := by
  have hrow := filter_length_set (fun c => decide (c.cell_type = t))
    (g.getD y []) x (f ((g.getD y []).getD x waterCell)) waterCell hx
  have hgl := filter_length_flatten_set (fun c => decide (c.cell_type = t)) g y
    ((g.getD y []).set x (f ((g.getD y []).getD x waterCell))) hy
  simp only [countType, gmod, getCell]
  have h2 : (((g.getD y []).set x
      (f ((g.getD y []).getD x waterCell))).filter
        (fun c => decide (c.cell_type = t))).length +
      (if ((g.getD y []).getD x waterCell).cell_type = t then 1 else 0) =
      ((g.getD y []).filter (fun c => decide (c.cell_type = t))).length +
      (if (f ((g.getD y []).getD x waterCell)).cell_type = t then 1 else 0) := by
    simpa using hrow
  omega

/-! ### Generic fold lemmas for the rule passes -/

theorem foldl_fixed {α ι : Type} {f : α → ι → α} :
    ∀ {l : List ι} {g : α}, (∀ g' a, a ∈ l → f g' a = g') → l.foldl f g = g := by
  intro l
  induction l with
  | nil => intro g _; rfl
  | cons a as ih =>
    intro g h
    rw [List.foldl_cons, h g a (by simp)]
    exact ih fun g' b hb => h g' b (by simp [hb])

theorem foldl_consume {α ι : Type} {f : α → ι → α} {P : α → List ι → Prop} :
    ∀ (l : List ι) (g : α), (∀ g' a l', P g' (a :: l') → P (f g' a) l') →
      P g l → P (l.foldl f g) [] := by
  intro l
  induction l with
  | nil => intro g _ h; exact h
  | cons a as ih =>
    intro g hstep h
    rw [List.foldl_cons]
    exact ih (f g a) hstep (hstep g a as h)

/-! ### The scan orders are duplicate-free and in bounds -/

theorem nodup_rowCoords (W : ℕ) :
    ∀ {ys : List ℕ}, ys.Nodup → (rowCoords ys W).Nodup := by
  intro ys
  induction ys with
  | nil => intro _; simp [rowCoords]
  | cons y ts ih =>
    intro h
    rw [rowCoords, List.flatMap_cons]
    refine List.Nodup.append ?_ (ih (List.nodup_cons.mp h).2) ?_
    · exact ((List.nodup_range W).map fun a b hab => by
        simpa using congrArg Prod.snd hab)
    · intro p hp1 hp2
      obtain ⟨x, _, rfl⟩ := List.mem_map.mp hp1
      obtain ⟨y', hy', hp2'⟩ := List.mem_flatMap.mp hp2
      obtain ⟨x', _, hx'⟩ := List.mem_map.mp hp2'
      have : y = y' := by
        have := congrArg Prod.fst hx'
        simpa using this.symm
      exact (List.nodup_cons.mp h).1 (this ▸ hy')

theorem mem_rowCoords {ys : List ℕ} {W : ℕ} {p : ℕ × ℕ} :
    p ∈ rowCoords ys W ↔ p.1 ∈ ys ∧ p.2 < W := by
  constructor
  · intro hp
    obtain ⟨y, hy, hp'⟩ := List.mem_flatMap.mp hp
    obtain ⟨x, hx, rfl⟩ := List.mem_map.mp hp'
    exact ⟨hy, by simpa using List.mem_range.mp hx⟩
  · intro hp
    refine List.mem_flatMap.mpr ⟨p.1, hp.1, ?_⟩
    exact List.mem_map.mpr ⟨p.2, List.mem_range.mpr hp.2, rfl⟩

theorem nodup_sandCoords (W H : ℕ) : (sandCoords W H).Nodup :=
  nodup_rowCoords W (List.nodup_reverse.mpr (List.nodup_range (H - 1)))

theorem mem_sandCoords {W H : ℕ} {p : ℕ × ℕ} (hp : p ∈ sandCoords W H) :
    p.1 + 1 < H ∧ p.2 < W := by
  have h1 := mem_rowCoords.mp hp
  refine ⟨?_, h1.2⟩
  have := List.mem_range.mp (List.mem_reverse.mp h1.1)
  omega

/-! ### C2: gravity never creates sand; merges can destroy it -/

theorem coords_ne {p q : ℕ × ℕ} (h : q ≠ p) : q.1 ≠ p.1 ∨ q.2 ≠ p.2 := by
  by_contra hc
  push_neg at hc
  exact h (Prod.ext hc.1 hc.2)

theorem lavaUpdate_id {old : Grid} {W H : ℕ} {g : Grid} {p : ℕ × ℕ}
    (h : (getCell old p.1 p.2).cell_type ≠ LAVA) :
    lavaUpdate old W H g p = g := by
  simp [lavaUpdate, h]

theorem lavaPass_id {old : Grid} {W H : ℕ} {g : Grid}
    (h : ∀ y x, (getCell old y x).cell_type ≠ LAVA) :
    lavaPass old W H g = g :=
  foldl_fixed fun _ a _ => lavaUpdate_id (h a.1 a.2)

/-- One sand relocation: the origin `(y,x)` (Sand in both `old` and `g`)
is cleared and the destination `(y+1,xd)` (Water in `old`) receives sand;
the sand count does not grow, well-formedness is kept, and every other
old-Sand position keeps its cell. -/
theorem sand_move_bound {W H : ℕ} {old g : Grid} {y x xd : ℕ}
    (hwf : gridWF W H g)
    (hy1 : y + 1 < H) (hx : x < W) (hxd : xd < W)
    (horig : (getCell g y x).cell_type = SAND)
    (hdw : (getCell old (y + 1) xd).cell_type = WATER) :
    (countType (gmod (gmod g y x fun c => { c with cell_type := WATER })
        (y + 1) xd fun c => { c with cell_type := SAND, temp := none }) SAND ≤
      countType g SAND) ∧
    gridWF W H (gmod (gmod g y x fun c => { c with cell_type := WATER })
        (y + 1) xd fun c => { c with cell_type := SAND, temp := none }) ∧
    (∀ q : ℕ × ℕ, q ≠ (y, x) → (getCell old q.1 q.2).cell_type = SAND →
      getCell (gmod (gmod g y x fun c => { c with cell_type := WATER })
        (y + 1) xd fun c => { c with cell_type := SAND, temp := none }) q.1 q.2 =
      getCell g q.1 q.2) := by
  have hylen : y < g.length := by rw [hwf.1]; omega
  have hxlen : x < (g.getD y []).length := by
    rw [hwf.2 _ (getD_mem_of_lt hylen)]; exact hx
  have hwf1 := gridWF_gmod (W := W) (H := H) y x
    (fun c => { c with cell_type := WATER }) hwf
  have hy1len : y + 1 < (gmod g y x fun c => { c with cell_type := WATER }).length := by
    rw [hwf1.1]; exact hy1
  have hxdlen : xd < ((gmod g y x fun c =>
      { c with cell_type := WATER }).getD (y + 1) []).length := by
    rw [hwf1.2 _ (getD_mem_of_lt hy1len)]; exact hxd
  have hc1 := countType_gmod (g := g) (y := y) (x := x)
    (fun c => { c with cell_type := WATER }) SAND hylen hxlen
  rw [horig] at hc1
  have hc2 := countType_gmod (g := gmod g y x fun c => { c with cell_type := WATER })
    (y := y + 1) (x := xd)
    (fun c => { c with cell_type := SAND, temp := none }) SAND hy1len hxdlen
  refine ⟨?_, gridWF_gmod _ _ _ hwf1, ?_⟩
  · rw [if_pos rfl] at hc1
    have hns : ¬ ((WATER : ℕ) = SAND) := by decide
    rw [if_neg hns] at hc1
    rw [if_pos rfl] at hc2
    split at hc2 <;> omega
  · intro q hq hqs
    have hne1 : q.1 ≠ y + 1 ∨ q.2 ≠ xd := by
      rcases Decidable.em (q = (y + 1, xd)) with h | h
      · rw [h] at hqs
        rw [hdw] at hqs
        cases hqs
      · exact coords_ne h
    rw [getCell_gmod_ne _ hne1, getCell_gmod_ne _ (coords_ne hq)]

/-- The sand pass of the environment rule never increases the number of
Sand cells. -/
theorem sandPass_count_le {W H : ℕ} {old : Grid} (hwf : gridWF W H old) :
    countType (sandPass old W H old) SAND ≤ countType old SAND := by
  have key := foldl_consume (f := sandUpdate old W)
    (P := fun g rem => rem.Sublist (sandCoords W H) ∧ gridWF W H g ∧
      countType g SAND ≤ countType old SAND ∧
      (∀ q ∈ rem, (getCell old q.1 q.2).cell_type = SAND →
        (getCell g q.1 q.2).cell_type = SAND))
    (sandCoords W H) old ?_ ?_
  · exact key.2.2.1
  · rintro g ⟨y, x⟩ l' ⟨hsub, hwfg, hcount, hpres⟩
    have hmem : (y, x) ∈ sandCoords W H := hsub.subset (by simp)
    have hbound := mem_sandCoords hmem
    have hsub' : l'.Sublist (sandCoords W H) :=
      (List.sublist_cons_self (y, x) l').trans hsub
    have hnotin : (y, x) ∉ l' :=
      (List.nodup_cons.mp (hsub.nodup (nodup_sandCoords W H))).1
    by_cases hsand : (getCell old y x).cell_type = SAND
    · have horig := hpres (y, x) (by simp) hsand
      by_cases hdown : (getCell old (y + 1) x).cell_type = WATER
      · have heq : sandUpdate old W g (y, x) =
            gmod (gmod g y x fun c => { c with cell_type := WATER }) (y + 1) x
              fun c => { c with cell_type := SAND, temp := none } := by
          simp [sandUpdate, hsand, hdown]
        have hb := sand_move_bound hwfg hbound.1 hbound.2 hbound.2 horig hdown
        rw [heq]
        refine ⟨hsub', hb.2.1, hb.1.trans hcount, fun q hq hqs => ?_⟩
        rw [hb.2.2 q (fun hc => hnotin (hc ▸ hq)) hqs]
        exact hpres q (by simp [hq]) hqs
      · by_cases hdl : 0 < x ∧ (getCell old (y + 1) (x - 1)).cell_type = WATER
        · have heq : sandUpdate old W g (y, x) =
              gmod (gmod g y x fun c => { c with cell_type := WATER }) (y + 1) (x - 1)
                fun c => { c with cell_type := SAND, temp := none } := by
            simp [sandUpdate, hsand, hdown, hdl]
          have hb := sand_move_bound hwfg hbound.1 hbound.2
            (by omega) horig hdl.2
          rw [heq]
          refine ⟨hsub', hb.2.1, hb.1.trans hcount, fun q hq hqs => ?_⟩
          rw [hb.2.2 q (fun hc => hnotin (hc ▸ hq)) hqs]
          exact hpres q (by simp [hq]) hqs
        · by_cases hdr : x + 1 < W ∧ (getCell old (y + 1) (x + 1)).cell_type = WATER
          · have heq : sandUpdate old W g (y, x) =
                gmod (gmod g y x fun c => { c with cell_type := WATER }) (y + 1) (x + 1)
                  fun c => { c with cell_type := SAND, temp := none } := by
              simp [sandUpdate, hsand, hdown, hdl, hdr]
            have hb := sand_move_bound hwfg hbound.1 hbound.2
              hdr.1 horig hdr.2
            rw [heq]
            refine ⟨hsub', hb.2.1, hb.1.trans hcount, fun q hq hqs => ?_⟩
            rw [hb.2.2 q (fun hc => hnotin (hc ▸ hq)) hqs]
            exact hpres q (by simp [hq]) hqs
          · have heq : sandUpdate old W g (y, x) = g := by
              simp [sandUpdate, hsand, hdown, hdl, hdr]
            rw [heq]
            exact ⟨hsub', hwfg, hcount, fun q hq hqs => hpres q (by simp [hq]) hqs⟩
    · have heq : sandUpdate old W g (y, x) = g := by
        simp [sandUpdate, hsand]
      rw [heq]
      exact ⟨hsub', hwfg, hcount, fun q hq hqs => hpres q (by simp [hq]) hqs⟩
  · exact ⟨List.Sublist.refl _, hwf, le_refl _, fun q _ h => h⟩

/-- **C2 (amended).** In a lava-free well-formed grid, the Environment Rule
Pass never creates a Sand cell: the Sand count after the pass is at most
the prior count.  It is not always preserved: two Sand cells can slip into
the same Water destination and merge (see the counterexample), so gravity
can destroy a Sand cell. -/
theorem sand_gravity_count_nonincreasing (W H : ℕ) (old : Grid)
    (hwf : gridWF W H old)
    (hnl : ∀ y x, (getCell old y x).cell_type ≠ LAVA) :
    countType (update_environment old old W H) SAND ≤ countType old SAND := by
  rw [update_environment, lavaPass_id hnl]
  exact sandPass_count_le hwf

/-- Closed witness: on `c2Grid` (3×2, no lava) the sand count after the
pass is at most the prior count. -/
theorem sand_gravity_count_nonincreasing_witness :
    countType (update_environment c2Grid c2Grid 3 2) SAND ≤ countType c2Grid SAND :=
  sand_gravity_count_nonincreasing 3 2 c2Grid (by unfold gridWF; decide)
    (cellPred_of_forall_mem (P := fun c => c.cell_type ≠ LAVA) (by decide) (by decide))

/-! ### C4: lava cools by 5 and solidifies exactly at ≤ 0 (spread can still
produce non-positive lava, see the counterexample) -/

theorem nodup_gridCoords (W H : ℕ) : (gridCoords W H).Nodup :=
  nodup_rowCoords W (List.nodup_range H)

theorem pos_ne_of_type {old : Grid} {y1 x1 y2 x2 t1 t2 : ℕ}
    (h1 : (getCell old y1 x1).cell_type = t1)
    (h2 : (getCell old y2 x2).cell_type = t2) (hne : t1 ≠ t2) :
    y1 ≠ y2 ∨ x1 ≠ x2 := by
  by_contra hc
  push_neg at hc
  rw [hc.1, hc.2, h2] at h1
  exact hne h1.symm

theorem foldl_pres {α ι : Type} {f : α → ι → α} {Q : α → Prop} :
    ∀ (l : List ι) (g : α), Q g → (∀ g' a, Q g' → Q (f g' a)) →
      Q (l.foldl f g) := by
  intro l
  induction l with
  | nil => intro g h _; exact h
  | cons a as ih =>
    intro g h hstep
    exact ih (f g a) (hstep g a h) hstep

theorem foldl_untouched {ι : Type} {f : Grid → ι → Grid} {y x : ℕ} :
    ∀ (l : List ι) (g : Grid),
      (∀ g' a, a ∈ l → getCell (f g' a) y x = getCell g' y x) →
      getCell (l.foldl f g) y x = getCell g y x := by
  intro l
  induction l with
  | nil => intro g _; rfl
  | cons a as ih =>
    intro g h
    rw [List.foldl_cons, ih (f g a) (fun g' b hb => h g' b (by simp [hb])),
      h g a (by simp)]

/-- Tracking one position through a left fold over duplicate-free
coordinates: every other coordinate leaves the cell alone and the
coordinate itself maps it through `F`. -/
theorem foldl_track {f : Grid → ℕ × ℕ → Grid} {y x : ℕ} {F : Cell → Cell}
    {Q : Grid → Prop} :
    ∀ (l : List (ℕ × ℕ)) (g : Grid), l.Nodup → (y, x) ∈ l → Q g →
      (∀ g' q, Q g' → Q (f g' q)) →
      (∀ g' q, q ≠ (y, x) → getCell (f g' q) y x = getCell g' y x) →
      (∀ g', Q g' → getCell (f g' (y, x)) y x = F (getCell g' y x)) →
      getCell (l.foldl f g) y x = F (getCell g y x) := by
  intro l
  induction l with
  | nil => intro g _ hmem; cases hmem
  | cons a as ih =>
    intro g hnd hmem hQ hQs hunt hself
    rw [List.foldl_cons]
    by_cases ha : a = (y, x)
    · subst ha
      have hnotin : ((y, x) : ℕ × ℕ) ∉ as := (List.nodup_cons.mp hnd).1
      rw [foldl_untouched as (f g (y, x))
          (fun g' b hb => hunt g' b (fun hc => hnotin (hc ▸ hb))),
        hself g hQ]
    · have hmem' : (y, x) ∈ as := by
        rcases List.mem_cons.mp hmem with h | h
        · exact absurd h.symm ha
        · exact h
      rw [ih (f g a) (List.nodup_cons.mp hnd).2 hmem' (hQs g a hQ) hQs hunt
          hself,
        hunt g a ha]

theorem sandUpdate_wf {W H : ℕ} {old g : Grid} {q : ℕ × ℕ}
    (h : gridWF W H g) : gridWF W H (sandUpdate old W g q) := by
  simp only [sandUpdate]
  split_ifs <;>
    first
      | exact gridWF_gmod _ _ _ (gridWF_gmod _ _ _ h)
      | exact h

theorem sandPass_wf {W H : ℕ} {old g : Grid} (h : gridWF W H g) :
    gridWF W H (sandPass old W H g) :=
  foldl_pres _ g h fun _ _ hq => sandUpdate_wf hq

theorem lavaSpread_wf {W H : ℕ} {old : Grid} {y x : ℕ} {temp : ℚ} {g : Grid}
    (h : gridWF W H g) : gridWF W H (lavaSpread old W H y x temp g) := by
  rw [lavaSpread]
  refine foldl_pres _ g h ?_
  intro g' d hq
  dsimp only
  split
  · exact gridWF_gmod _ _ _ hq
  · exact hq

theorem lavaUpdate_wf {W H : ℕ} {old g : Grid} {q : ℕ × ℕ}
    (h : gridWF W H g) : gridWF W H (lavaUpdate old W H g q) := by
  simp only [lavaUpdate]
  split_ifs
  · exact gridWF_gmod _ _ _ h
  · exact lavaSpread_wf (gridWF_gmod _ _ _ h)
  · exact h

/-- The sand rule writes only at positions that are Sand or Water in the
prior generation, so it never touches a prior-Lava position. -/
theorem sandUpdate_not_touch {old : Grid} {W : ℕ} {y x : ℕ}
    (hp : (getCell old y x).cell_type = LAVA) (g : Grid) (q : ℕ × ℕ) :
    getCell (sandUpdate old W g q) y x = getCell g y x := by
  simp only [sandUpdate]
  by_cases hs : (getCell old q.1 q.2).cell_type = SAND
  · have ho : y ≠ q.1 ∨ x ≠ q.2 := pos_ne_of_type hp hs (by decide)
    rw [if_pos hs]
    by_cases h1 : (getCell old (q.1 + 1) q.2).cell_type = WATER
    · rw [if_pos h1, getCell_gmod_ne _ (pos_ne_of_type hp h1 (by decide)),
        getCell_gmod_ne _ ho]
    · rw [if_neg h1]
      by_cases h2 : 0 < q.2 ∧ (getCell old (q.1 + 1) (q.2 - 1)).cell_type = WATER
      · rw [if_pos h2, getCell_gmod_ne _ (pos_ne_of_type hp h2.2 (by decide)),
          getCell_gmod_ne _ ho]
      · rw [if_neg h2]
        by_cases h3 : q.2 + 1 < W ∧ (getCell old (q.1 + 1) (q.2 + 1)).cell_type = WATER
        · rw [if_pos h3, getCell_gmod_ne _ (pos_ne_of_type hp h3.2 (by decide)),
            getCell_gmod_ne _ ho]
        · rw [if_neg h3]
  · rw [if_neg hs]

theorem sandPass_not_touch {W H : ℕ} {old g : Grid} {y x : ℕ}
    (hp : (getCell old y x).cell_type = LAVA) :
    getCell (sandPass old W H g) y x = getCell g y x :=
  foldl_untouched _ g fun g' q _ => sandUpdate_not_touch hp g' q

/-- The spread loop writes only at prior-Water neighbours, so it never
touches a prior-Lava position. -/
theorem lavaSpread_not_touch {old : Grid} {W H yl xl : ℕ} {temp : ℚ}
    {y x : ℕ} (hp : (getCell old y x).cell_type = LAVA) (g : Grid) :
    getCell (lavaSpread old W H yl xl temp g) y x = getCell g y x := by
  rw [lavaSpread]
  refine foldl_untouched _ g ?_
  intro g2 d _
  dsimp only
  split
  · next h =>
    exact getCell_gmod_ne _ (pos_ne_of_type hp h.2.2.2.2 (by decide))
  · rfl

/-- Any other coordinate of the lava pass leaves a prior-Lava position
alone (its own write is elsewhere, its spread hits only prior-Water). -/
theorem lavaUpdate_not_touch {old : Grid} {W H : ℕ} {y x : ℕ}
    (hp : (getCell old y x).cell_type = LAVA) (g : Grid) (q : ℕ × ℕ)
    (hne : q ≠ (y, x)) :
    getCell (lavaUpdate old W H g q) y x = getCell g y x := by
  have hne' : y ≠ q.1 ∨ x ≠ q.2 := by
    rcases coords_ne hne with h | h
    · exact Or.inl fun hc => h (by simpa using hc.symm)
    · exact Or.inr fun hc => h (by simpa using hc.symm)
  simp only [lavaUpdate]
  by_cases hl : (getCell old q.1 q.2).cell_type = LAVA
  · rw [if_pos hl]
    by_cases ht : qsub ((getCell old q.1 q.2).temp.getD 100) 5 ≤ 0
    · rw [if_pos ht, getCell_gmod_ne _ hne']
    · rw [if_neg ht, lavaSpread_not_touch hp, getCell_gmod_ne _ hne']
  · rw [if_neg hl]

/-- Processing a prior-Lava coordinate itself: the cell cools by 5 and
either solidifies to Rock (cooled temperature `≤ 0`) or stays Lava at the
cooled temperature. -/
theorem lavaUpdate_self {W H : ℕ} {old g : Grid} {y x : ℕ}
    (hwf : gridWF W H g) (hy : y < H) (hx : x < W)
    (hp : (getCell old y x).cell_type = LAVA) :
    getCell (lavaUpdate old W H g (y, x)) y x =
      if qsub ((getCell old y x).temp.getD 100) 5 ≤ 0 then
        { getCell g y x with cell_type := ROCK, temp := none }
      else
        { getCell g y x with
            temp := some (qsub ((getCell old y x).temp.getD 100) 5) } := by
  have hylen : y < g.length := by rw [hwf.1]; exact hy
  have hxlen : x < (g.getD y []).length := by
    rw [hwf.2 _ (getD_mem_of_lt hylen)]; exact hx
  simp only [lavaUpdate]
  rw [if_pos hp]
  by_cases ht : qsub ((getCell old y x).temp.getD 100) 5 ≤ 0
  · rw [if_pos ht, if_pos ht, getCell_gmod_self _ hylen hxlen]
  · rw [if_neg ht, if_neg ht, lavaSpread_not_touch hp,
      getCell_gmod_self _ hylen hxlen]

/-- After the lava pass, a prior-Lava position holds exactly the cooled or
solidified version of its tracked cell. -/
theorem lavaPass_lava_cell {W H : ℕ} {old g : Grid} {y x : ℕ}
    (hwf : gridWF W H g) (hy : y < H) (hx : x < W)
    (hp : (getCell old y x).cell_type = LAVA) :
    getCell (lavaPass old W H g) y x =
      if qsub ((getCell old y x).temp.getD 100) 5 ≤ 0 then
        { getCell g y x with cell_type := ROCK, temp := none }
      else
        { getCell g y x with
            temp := some (qsub ((getCell old y x).temp.getD 100) 5) } := by
  have hmem : ((y, x) : ℕ × ℕ) ∈ gridCoords W H := by
    rw [gridCoords]
    exact mem_rowCoords.mpr ⟨List.mem_range.mpr hy, hx⟩
  exact foldl_track
    (F := fun c =>
      if qsub ((getCell old y x).temp.getD 100) 5 ≤ 0 then
        { c with cell_type := ROCK, temp := none }
      else
        { c with temp := some (qsub ((getCell old y x).temp.getD 100) 5) })
    (Q := gridWF W H) (gridCoords W H) g (nodup_gridCoords W H) hmem hwf
    (fun _ q hq => lavaUpdate_wf hq)
    (fun g' q hne => lavaUpdate_not_touch hp g' q hne)
    (fun g' hq => lavaUpdate_self hq hy hx hp)

/-- **C4 (amended).** A prior-generation Lava cell cools by exactly 5 per
step: it solidifies to Rock (temperature cleared) exactly when the cooled
temperature would reach `≤ 0`, and otherwise survives as Lava at the
strictly smaller cooled temperature.  (The survived-cell part of the claim
holds; its "no Lava cell with non-positive temperature after a step" part
is false, because spreading writes `cooled − 10`, which can be `≤ 0` — see
the counterexample.) -/
theorem lava_cooling_and_solidification (W H : ℕ) (old : Grid) (y x : ℕ)
    (hwf : gridWF W H old) (hy : y < H) (hx : x < W)
    (hp : (getCell old y x).cell_type = LAVA) :
    getCell (update_environment old old W H) y x =
      (if qsub ((getCell old y x).temp.getD 100) 5 ≤ 0 then
        { getCell old y x with cell_type := ROCK, temp := none }
      else
        { getCell old y x with
            temp := some (qsub ((getCell old y x).temp.getD 100) 5) }) ∧
    qsub ((getCell old y x).temp.getD 100) 5 <
      (getCell old y x).temp.getD 100 := by
  constructor
  · rw [update_environment,
      lavaPass_lava_cell (sandPass_wf hwf) hy hx hp,
      sandPass_not_touch hp]
  · rw [qsub_eq]
    linarith

/-- Closed witness: the Lava cell of `c4Sim` (temperature 15) survives the
environment pass as Lava at the strictly smaller temperature 10. -/
theorem lava_cooling_and_solidification_witness :
    getCell (update_environment c4Sim.grid c4Sim.grid 2 1) 0 0 =
      (if qsub ((getCell c4Sim.grid 0 0).temp.getD 100) 5 ≤ 0 then
        { getCell c4Sim.grid 0 0 with cell_type := ROCK, temp := none }
      else
        { getCell c4Sim.grid 0 0 with
            temp := some (qsub ((getCell c4Sim.grid 0 0).temp.getD 100) 5) }) ∧
    qsub ((getCell c4Sim.grid 0 0).temp.getD 100) 5 <
      (getCell c4Sim.grid 0 0).temp.getD 100 :=
  lava_cooling_and_solidification 2 1 c4Sim.grid 0 0
    (by unfold gridWF; decide) (by decide) (by decide) (by decide)

/-! ### Pointwise tracking of a single grid write -/

/-- A write at `(y,x)` changes the grid at most at `(y,x)`, and there only
to the written value. -/
theorem getCell_gmod_cases (g : Grid) (y x y' x' : ℕ) (f : Cell → Cell) :
    getCell (gmod g y x f) y' x' = getCell g y' x' ∨
    (y' = y ∧ x' = x ∧ getCell (gmod g y x f) y' x' = f (getCell g y x)) := by
  by_cases hy : y' = y
  · by_cases hx : x' = x
    · subst hy
      subst hx
      by_cases hyl : y' < g.length
      · by_cases hxl : x' < (g.getD y' []).length
        · exact Or.inr ⟨rfl, rfl, getCell_gmod_self f hyl hxl⟩
        · left
          rw [gmod, List.set_eq_of_length_le (Nat.le_of_not_lt hxl)]
          simp only [getCell, List.getD_eq_getElem?_getD]
          rw [List.getElem?_set_self hyl, Option.getD_some]
      · left
        rw [gmod, List.set_eq_of_length_le (Nat.le_of_not_lt hyl)]
    · exact Or.inl (getCell_gmod_ne f (Or.inr hx))
  · exact Or.inl (getCell_gmod_ne f (Or.inl hy))

/-- A position-independent cell property survives a write whose written
value has it. -/
theorem inv_gmod {P : Cell → Prop} {g : Grid} {y x : ℕ} {f : Cell → Cell}
    (hg : ∀ y' x', P (getCell g y' x'))
    (hf : P (f (getCell g y x))) :
    ∀ y' x', P (getCell (gmod g y x f) y' x') := by
  intro y' x'
  rcases getCell_gmod_cases g y x y' x' f with h | ⟨_, _, h⟩ <;> rw [h]
  · exact hg y' x'
  · exact hf

/-- Position-dependent variant of `inv_gmod`. -/
theorem inv2_gmod {P : ℕ → ℕ → Cell → Prop} {g : Grid} {y x : ℕ}
    {f : Cell → Cell}
    (hg : ∀ y' x', P y' x' (getCell g y' x'))
    (hf : P y x (f (getCell g y x))) :
    ∀ y' x', P y' x' (getCell (gmod g y x f) y' x') := by
  intro y' x'
  rcases getCell_gmod_cases g y x y' x' f with h | ⟨hy, hx, h⟩
  · rw [h]; exact hg y' x'
  · subst hy; subst hx; rw [h]; exact hf

theorem pos_ne_of_type_ne {old : Grid} {y1 x1 y2 x2 t : ℕ}
    (h1 : (getCell old y1 x1).cell_type ≠ t)
    (h2 : (getCell old y2 x2).cell_type = t) :
    y1 ≠ y2 ∨ x1 ≠ x2 := by
  by_contra hc
  push_neg at hc
  rw [hc.1, hc.2, h2] at h1
  exact h1 rfl

theorem idBound_mono {n m : ℕ} {c : Cell} (h : n ≤ m) (hc : idBound n c) :
    idBound m c :=
  hc.imp id fun hlt => lt_of_lt_of_le hlt h

theorem ibg_mono {n m : ℕ} {g : Grid} (h : n ≤ m) (hg : ibg n g) :
    ibg m g :=
  fun y x => idBound_mono h (hg y x)

theorem idBound_some {n : ℕ} {c : Cell} {i : ℕ} (h : idBound n c)
    (hs : c.agent_id = some i) : i < n := by
  rcases h with h | h
  · rw [hs] at h; cases h
  · rw [hs] at h; exact h

theorem stageFrame_refl {old : Grid} {y x : ℕ} {g : Grid} :
    stageFrame old y x g g := fun _ _ _ _ => rfl

theorem stageFrame_trans {old : Grid} {y x : ℕ} {g1 g2 g3 : Grid}
    (h1 : stageFrame old y x g1 g2) (h2 : stageFrame old y x g2 g3) :
    stageFrame old y x g1 g3 :=
  fun y' x' hne hw => (h2 y' x' hne hw).trans (h1 y' x' hne hw)

theorem agent_type_ne_water {c : Cell} (h : c.cell_type = AGENT) :
    c.cell_type ≠ WATER := by
  rw [h]; decide

theorem agent_type_ne_sand {c : Cell} (h : c.cell_type = AGENT) :
    c.cell_type ≠ SAND := by
  rw [h]; decide

theorem agent_type_ne_lava {c : Cell} (h : c.cell_type = AGENT) :
    c.cell_type ≠ LAVA := by
  rw [h]; decide

/-! ### The environment pass preserves the two-kinds and id invariants -/

theorem water_ne_agent : (WATER : ℕ) ≠ AGENT := by decide

theorem sand_ne_agent : (SAND : ℕ) ≠ AGENT := by decide

theorem rock_ne_agent : (ROCK : ℕ) ≠ AGENT := by decide

theorem lava_ne_agent : (LAVA : ℕ) ≠ AGENT := by decide

/-- One sand relocation preserves `EInv`. -/
theorem sandMove_einv {old g : Grid} {a b a2 b2 : ℕ}
    (h : EInv old g)
    (hs : (getCell old a b).cell_type = SAND)
    (hw : (getCell old a2 b2).cell_type = WATER) :
    EInv old (gmod (gmod g a b fun c => { c with cell_type := WATER })
      a2 b2 fun c => { c with cell_type := SAND, temp := none }) := by
  have h1 : EInv old (gmod g a b fun c => { c with cell_type := WATER }) := by
    refine inv2_gmod (P := fun y' x' c => envClean c ∧
      (c.cell_type = AGENT → (getCell old y' x').cell_type = AGENT)) h ?_
    have hp := h a b
    have hnA : (getCell g a b).cell_type ≠ AGENT :=
      fun habs => sand_ne_agent (hs.symm.trans (hp.2 habs))
    exact ⟨Or.inr (hp.1.resolve_left hnA), fun habs => absurd habs water_ne_agent⟩
  refine inv2_gmod (P := fun y' x' c => envClean c ∧
    (c.cell_type = AGENT → (getCell old y' x').cell_type = AGENT)) h1 ?_
  have hp := h1 a2 b2
  have hnA : (getCell (gmod g a b fun c => { c with cell_type := WATER }) a2 b2).cell_type ≠ AGENT :=
    fun habs => water_ne_agent (hw.symm.trans (hp.2 habs))
  exact ⟨Or.inr (hp.1.resolve_left hnA), fun habs => absurd habs sand_ne_agent⟩

theorem sandUpdate_einv {old : Grid} {W : ℕ} {g : Grid}
    (h : EInv old g) (q : ℕ × ℕ) : EInv old (sandUpdate old W g q) := by
  by_cases hs : (getCell old q.1 q.2).cell_type = SAND
  · by_cases h1 : (getCell old (q.1 + 1) q.2).cell_type = WATER
    · have heq : sandUpdate old W g q =
          gmod (gmod g q.1 q.2 fun c => { c with cell_type := WATER }) (q.1 + 1) q.2
            fun c => { c with cell_type := SAND, temp := none } := by
        simp [sandUpdate, hs, h1]
      rw [heq]; exact sandMove_einv h hs h1
    · by_cases h2 : 0 < q.2 ∧ (getCell old (q.1 + 1) (q.2 - 1)).cell_type = WATER
      · have heq : sandUpdate old W g q =
            gmod (gmod g q.1 q.2 fun c => { c with cell_type := WATER }) (q.1 + 1) (q.2 - 1)
              fun c => { c with cell_type := SAND, temp := none } := by
          simp [sandUpdate, hs, h1, h2]
        rw [heq]; exact sandMove_einv h hs h2.2
      · by_cases h3 : q.2 + 1 < W ∧ (getCell old (q.1 + 1) (q.2 + 1)).cell_type = WATER
        · have heq : sandUpdate old W g q =
              gmod (gmod g q.1 q.2 fun c => { c with cell_type := WATER }) (q.1 + 1) (q.2 + 1)
                fun c => { c with cell_type := SAND, temp := none } := by
            simp [sandUpdate, hs, h1, h2, h3]
          rw [heq]; exact sandMove_einv h hs h3.2
        · have heq : sandUpdate old W g q = g := by
            simp [sandUpdate, hs, h1, h2, h3]
          rw [heq]; exact h
  · have heq : sandUpdate old W g q = g := by simp [sandUpdate, hs]
    rw [heq]; exact h

theorem sandPass_einv {old : Grid} {W H : ℕ} {g : Grid} (h : EInv old g) :
    EInv old (sandPass old W H g) :=
  foldl_pres _ g h fun _ q hq => sandUpdate_einv hq q

/-- Writing newborn lava onto a prior-Water position preserves `EInv`. -/
theorem lavaBirth_einv {old g : Grid} {a b : ℕ} {t : ℚ}
    (h : EInv old g) (hw : (getCell old a b).cell_type = WATER) :
    EInv old (gmod g a b fun c => { c with cell_type := LAVA, temp := some t }) := by
  refine inv2_gmod (P := fun y' x' c => envClean c ∧
    (c.cell_type = AGENT → (getCell old y' x').cell_type = AGENT)) h ?_
  have hp := h a b
  have hnA : (getCell g a b).cell_type ≠ AGENT :=
    fun habs => water_ne_agent (hw.symm.trans (hp.2 habs))
  exact ⟨Or.inr (hp.1.resolve_left hnA), fun habs => absurd habs lava_ne_agent⟩

theorem lavaSpread_einv {old : Grid} {W H yl xl : ℕ} {temp : ℚ} {g : Grid}
    (h : EInv old g) : EInv old (lavaSpread old W H yl xl temp g) := by
  rw [lavaSpread]
  refine foldl_pres _ g h ?_
  intro g' d hq
  dsimp only
  split
  · next hcond => exact lavaBirth_einv hq hcond.2.2.2.2
  · exact hq

theorem lavaUpdate_einv {old : Grid} {W H : ℕ} {g : Grid}
    (h : EInv old g) (q : ℕ × ℕ) : EInv old (lavaUpdate old W H g q) := by
  simp only [lavaUpdate]
  split_ifs with hl ht
  · refine inv2_gmod (P := fun y' x' c => envClean c ∧
      (c.cell_type = AGENT → (getCell old y' x').cell_type = AGENT)) h ?_
    have hp := h q.1 q.2
    have hnA : (getCell g q.1 q.2).cell_type ≠ AGENT :=
      fun habs => lava_ne_agent (hl.symm.trans (hp.2 habs))
    exact ⟨Or.inr (hp.1.resolve_left hnA), fun habs => absurd habs rock_ne_agent⟩
  · refine lavaSpread_einv ?_
    refine inv2_gmod (P := fun y' x' c => envClean c ∧
      (c.cell_type = AGENT → (getCell old y' x').cell_type = AGENT)) h ?_
    have hp := h q.1 q.2
    exact ⟨hp.1, hp.2⟩
  · exact h

theorem lavaPass_einv {old : Grid} {W H : ℕ} {g : Grid} (h : EInv old g) :
    EInv old (lavaPass old W H g) :=
  foldl_pres _ g h fun _ q hq => lavaUpdate_einv hq q

theorem update_environment_einv {old g : Grid} {W H : ℕ} (h : EInv old g) :
    EInv old (update_environment old g W H) :=
  lavaPass_einv (sandPass_einv h)

/-- A write that keeps the id field keeps `ibg`. -/
theorem ib_gmod_keepId {n : ℕ} {g : Grid} {a b : ℕ} {f : Cell → Cell}
    (h : ibg n g) (hf : ∀ c, idBound n c → idBound n (f c)) :
    ibg n (gmod g a b f) :=
  inv_gmod h (hf _ (h a b))

theorem sandUpdate_ib {old : Grid} {W n : ℕ} {g : Grid} (h : ibg n g)
    (q : ℕ × ℕ) : ibg n (sandUpdate old W g q) := by
  simp only [sandUpdate]
  split_ifs <;>
    first
      | exact h
      | exact ib_gmod_keepId (ib_gmod_keepId h fun _ hc => hc) fun _ hc => hc

theorem lavaSpread_ib {old : Grid} {W H yl xl n : ℕ} {temp : ℚ} {g : Grid}
    (h : ibg n g) : ibg n (lavaSpread old W H yl xl temp g) := by
  rw [lavaSpread]
  refine foldl_pres _ g h ?_
  intro g' d hq
  dsimp only
  split
  · exact ib_gmod_keepId hq fun _ hc => hc
  · exact hq

theorem lavaUpdate_ib {old : Grid} {W H n : ℕ} {g : Grid} (h : ibg n g)
    (q : ℕ × ℕ) : ibg n (lavaUpdate old W H g q) := by
  simp only [lavaUpdate]
  split_ifs
  · exact ib_gmod_keepId h fun _ hc => hc
  · exact lavaSpread_ib (ib_gmod_keepId h fun _ hc => hc)
  · exact h

theorem update_environment_ib {old g : Grid} {W H n : ℕ} (h : ibg n g) :
    ibg n (update_environment old g W H) := by
  rw [update_environment]
  exact foldl_pres _ _ (foldl_pres _ g h fun _ q hq => sandUpdate_ib hq q)
    fun _ q hq => lavaUpdate_ib hq q

/-! ### The environment pass does not touch prior-Agent positions -/

theorem sandUpdate_keeps {old : Grid} {W : ℕ} {y x : ℕ}
    (hs : (getCell old y x).cell_type ≠ SAND)
    (hw : (getCell old y x).cell_type ≠ WATER) (g : Grid) (q : ℕ × ℕ) :
    getCell (sandUpdate old W g q) y x = getCell g y x := by
  simp only [sandUpdate]
  by_cases h1 : (getCell old q.1 q.2).cell_type = SAND
  · rw [if_pos h1]
    by_cases hd : (getCell old (q.1 + 1) q.2).cell_type = WATER
    · rw [if_pos hd, getCell_gmod_ne _ (pos_ne_of_type_ne hw hd),
        getCell_gmod_ne _ (pos_ne_of_type_ne hs h1)]
    · rw [if_neg hd]
      by_cases h2 : 0 < q.2 ∧ (getCell old (q.1 + 1) (q.2 - 1)).cell_type = WATER
      · rw [if_pos h2, getCell_gmod_ne _ (pos_ne_of_type_ne hw h2.2),
          getCell_gmod_ne _ (pos_ne_of_type_ne hs h1)]
      · rw [if_neg h2]
        by_cases h3 : q.2 + 1 < W ∧ (getCell old (q.1 + 1) (q.2 + 1)).cell_type = WATER
        · rw [if_pos h3, getCell_gmod_ne _ (pos_ne_of_type_ne hw h3.2),
            getCell_gmod_ne _ (pos_ne_of_type_ne hs h1)]
        · rw [if_neg h3]
  · rw [if_neg h1]

theorem sandPass_keeps {old : Grid} {W H : ℕ} {g : Grid} {y x : ℕ}
    (hs : (getCell old y x).cell_type ≠ SAND)
    (hw : (getCell old y x).cell_type ≠ WATER) :
    getCell (sandPass old W H g) y x = getCell g y x :=
  foldl_untouched _ g fun g' q _ => sandUpdate_keeps hs hw g' q

theorem lavaSpread_keeps {old : Grid} {W H yl xl : ℕ} {temp : ℚ} {g : Grid}
    {y x : ℕ} (hw : (getCell old y x).cell_type ≠ WATER) :
    getCell (lavaSpread old W H yl xl temp g) y x = getCell g y x := by
  rw [lavaSpread]
  refine foldl_untouched _ g ?_
  intro g2 d _
  dsimp only
  split
  · next h => exact getCell_gmod_ne _ (pos_ne_of_type_ne hw h.2.2.2.2)
  · rfl

theorem lavaUpdate_keeps {old : Grid} {W H : ℕ} {y x : ℕ}
    (hl : (getCell old y x).cell_type ≠ LAVA)
    (hw : (getCell old y x).cell_type ≠ WATER) (g : Grid) (q : ℕ × ℕ) :
    getCell (lavaUpdate old W H g q) y x = getCell g y x := by
  simp only [lavaUpdate]
  by_cases hla : (getCell old q.1 q.2).cell_type = LAVA
  · rw [if_pos hla]
    by_cases ht : qsub ((getCell old q.1 q.2).temp.getD 100) 5 ≤ 0
    · rw [if_pos ht, getCell_gmod_ne _ (pos_ne_of_type_ne hl hla)]
    · rw [if_neg ht, lavaSpread_keeps hw, getCell_gmod_ne _ (pos_ne_of_type_ne hl hla)]
  · rw [if_neg hla]

theorem lavaPass_keeps {old : Grid} {W H : ℕ} {g : Grid} {y x : ℕ}
    (hl : (getCell old y x).cell_type ≠ LAVA)
    (hw : (getCell old y x).cell_type ≠ WATER) :
    getCell (lavaPass old W H g) y x = getCell g y x :=
  foldl_untouched _ g fun g' q _ => lavaUpdate_keeps hl hw g' q

theorem update_environment_keeps {old g : Grid} {W H : ℕ} {y x : ℕ}
    (hs : (getCell old y x).cell_type ≠ SAND)
    (hw : (getCell old y x).cell_type ≠ WATER)
    (hl : (getCell old y x).cell_type ≠ LAVA) :
    getCell (update_environment old g W H) y x = getCell g y x := by
  rw [update_environment, lavaPass_keeps hl hw, sandPass_keeps hs hw]

/-! ### The agent stages preserve the two-kinds invariant -/

theorem gmod_type_keep {g : Grid} {y x : ℕ} {f : Cell → Cell}
    (hf : ∀ c, (f c).cell_type = c.cell_type) :
    (getCell (gmod g y x f) y x).cell_type = (getCell g y x).cell_type := by
  rcases getCell_gmod_cases g y x y x f with h | ⟨_, _, h⟩ <;> rw [h]
  exact hf _

theorem gmod_agent_keep {g : Grid} {y x : ℕ} {f : Cell → Cell}
    (hf : ∀ c, (f c).cell_type = c.cell_type)
    (h : (getCell g y x).cell_type = AGENT) :
    (getCell (gmod g y x f) y x).cell_type = AGENT := by
  rw [gmod_type_keep hf]; exact h

/-- A write that changes no classifying field keeps `ecg`. -/
theorem ecg_gmod_fieldsKeep {g : Grid} {y x : ℕ} {f : Cell → Cell}
    (hf : ∀ c, (f c).cell_type = c.cell_type ∧ (f c).species_id = c.species_id ∧
      (f c).subtype = c.subtype ∧ (f c).agent_id = c.agent_id ∧
      (f c).nutrient = c.nutrient)
    (hec : ecg g) : ecg (gmod g y x f) := by
  refine inv_gmod hec ?_
  obtain ⟨h1, h2, h3, h4, h5⟩ := hf (getCell g y x)
  rcases hec y x with h | h
  · exact Or.inl (h1.trans h)
  · exact Or.inr ⟨h2.trans h.1, h3.trans h.2.1, h4.trans h.2.2.1, h5.trans h.2.2.2⟩

/-- A type-preserving write on an Agent-typed cell keeps `ecg`. -/
theorem ecg_gmod_typeKeep {g : Grid} {y x : ℕ} {f : Cell → Cell}
    (hf : ∀ c, (f c).cell_type = c.cell_type) (hec : ecg g)
    (hag : (getCell g y x).cell_type = AGENT) : ecg (gmod g y x f) :=
  inv_gmod hec (Or.inl ((hf _).trans hag))

/-- A write producing an Agent-typed cell keeps `ecg`. -/
theorem ecg_gmod_agentWrite {g : Grid} {y x : ℕ} {f : Cell → Cell}
    (hf : ∀ c, (f c).cell_type = AGENT) (hec : ecg g) : ecg (gmod g y x f) :=
  inv_gmod hec (Or.inl (hf _))

/-- A write clearing all classifying fields keeps `ecg`. -/
theorem ecg_gmod_cleared {g : Grid} {y x : ℕ} {f : Cell → Cell}
    (hf : ∀ c, (f c).species_id = none ∧ (f c).subtype = none ∧
      (f c).agent_id = none ∧ (f c).nutrient = 0)
    (hec : ecg g) : ecg (gmod g y x f) :=
  inv_gmod hec (Or.inr (hf _))

theorem agingStage_ec {cell : Cell} {y x : ℕ} {st : AState} (hec : ecg st.g) :
    ecg (agingStage cell y x st).g ∧
    (∀ y' x', (y' ≠ y ∨ x' ≠ x) →
      getCell (agingStage cell y x st).g y' x' = getCell st.g y' x') ∧
    (getCell (agingStage cell y x st).g y x).cell_type =
      (getCell st.g y x).cell_type := by
  refine ⟨?_, ?_, ?_⟩
  · exact ecg_gmod_fieldsKeep (f := fun c => { c with age := cell.age + 1 })
      (fun _ => ⟨rfl, rfl, rfl, rfl, rfl⟩) hec
  · intro y' x' h
    exact getCell_gmod_ne (fun c => { c with age := cell.age + 1 }) h
  · exact gmod_type_keep (f := fun c => { c with age := cell.age + 1 }) fun _ => rfl

theorem rootStage_ec {old : Grid} {spec : MarinePlantSpecies} {cell : Cell}
    {H y x : ℕ} {st : AState} (hec : ecg st.g)
    (hag : (getCell st.g y x).cell_type = AGENT) :
    ecg (resS (rootStage old spec cell H y x st)).g ∧
    (∀ y' x', (y' ≠ y ∨ x' ≠ x) →
      getCell (resS (rootStage old spec cell H y x st)).g y' x' =
        getCell st.g y' x') ∧
    (∀ st2, rootStage old spec cell H y x st = .inr st2 →
      (getCell st2.g y x).cell_type = AGENT) := by
  simp only [rootStage]
  split_ifs with h1 h2 h3
  · refine ⟨?_, ?_, ?_⟩
    · exact ecg_gmod_typeKeep
        (f := fun c => { c with nutrient := qadd cell.nutrient spec.substrate_absorb_rate })
        (fun _ => rfl) hec hag
    · intro y' x' h
      exact getCell_gmod_ne
        (fun c => { c with nutrient := qadd cell.nutrient spec.substrate_absorb_rate }) h
    · intro st2 h
      injection h with h
      subst h
      exact gmod_agent_keep
        (f := fun c => { c with nutrient := qadd cell.nutrient spec.substrate_absorb_rate })
        (fun _ => rfl) hag
  · refine ⟨?_, ?_, ?_⟩
    · exact ecg_gmod_cleared (f := clearToWater) (fun _ => ⟨rfl, rfl, rfl, rfl⟩) hec
    · intro y' x' h
      exact getCell_gmod_ne clearToWater h
    · intro st2 h
      cases h
  · refine ⟨?_, ?_, ?_⟩
    · exact ecg_gmod_cleared (f := clearToWater) (fun _ => ⟨rfl, rfl, rfl, rfl⟩) hec
    · intro y' x' h
      exact getCell_gmod_ne clearToWater h
    · intro st2 h
      cases h
  · refine ⟨hec, fun _ _ _ => rfl, ?_⟩
    intro st2 h
    injection h with h
    subst h
    exact hag

theorem lightStage_ec {spec : MarinePlantSpecies} {cell : Cell}
    {H y x : ℕ} {st : AState} (hec : ecg st.g)
    (hag : (getCell st.g y x).cell_type = AGENT) :
    ecg (lightStage spec cell H y x st).g ∧
    (∀ y' x', (y' ≠ y ∨ x' ≠ x) →
      getCell (lightStage spec cell H y x st).g y' x' = getCell st.g y' x') ∧
    (getCell (lightStage spec cell H y x st).g y x).cell_type = AGENT := by
  simp only [lightStage]
  split_ifs with h1
  · refine ⟨?_, ?_, ?_⟩
    · exact ecg_gmod_typeKeep
        (f := fun c => { c with nutrient := qadd c.nutrient (qmax 0 (qmul (qmul (mkRat (H - 1 - y : ℕ) 1) spec.light_absorb_rate) (mkRat 1 10))) })
        (fun _ => rfl) hec hag
    · intro y' x' h
      exact getCell_gmod_ne
        (fun c => { c with nutrient := qadd c.nutrient (qmax 0 (qmul (qmul (mkRat (H - 1 - y : ℕ) 1) spec.light_absorb_rate) (mkRat 1 10))) }) h
    · exact gmod_agent_keep
        (f := fun c => { c with nutrient := qadd c.nutrient (qmax 0 (qmul (qmul (mkRat (H - 1 - y : ℕ) 1) spec.light_absorb_rate) (mkRat 1 10))) })
        (fun _ => rfl) hag
  · exact ⟨hec, fun _ _ _ => rfl, hag⟩

theorem deathStage_ec {spec : MarinePlantSpecies} {y x : ℕ} {st : AState}
    (hec : ecg st.g) :
    ecg (resS (deathStage spec y x st)).g ∧
    (∀ y' x', (y' ≠ y ∨ x' ≠ x) →
      getCell (resS (deathStage spec y x st)).g y' x' = getCell st.g y' x') ∧
    (∀ st2, deathStage spec y x st = .inr st2 → st2 = st) := by
  simp only [deathStage]
  split_ifs with h1 h2
  · refine ⟨?_, ?_, ?_⟩
    · exact ecg_gmod_cleared
        (f := fun c => { c with cell_type := SAND, nutrient := 0, species_id := none, subtype := none, agent_id := none })
        (fun _ => ⟨rfl, rfl, rfl, rfl⟩) hec
    · intro y' x' h
      exact getCell_gmod_ne
        (fun c => { c with cell_type := SAND, nutrient := 0, species_id := none, subtype := none, agent_id := none }) h
    · intro st2 h
      cases h
  · refine ⟨?_, ?_, ?_⟩
    · exact ecg_gmod_cleared
        (f := fun c => { c with cell_type := WATER, nutrient := 0, species_id := none, subtype := none, agent_id := none })
        (fun _ => ⟨rfl, rfl, rfl, rfl⟩) hec
    · intro y' x' h
      exact getCell_gmod_ne
        (fun c => { c with cell_type := WATER, nutrient := 0, species_id := none, subtype := none, agent_id := none }) h
    · intro st2 h
      cases h
  · refine ⟨hec, fun _ _ _ => rfl, ?_⟩
    intro st2 h
    injection h with h
    exact h.symm

theorem sporeAgeCheck_ec {spec : MarinePlantSpecies} {cell : Cell}
    {y x : ℕ} {st : AState} (hec : ecg st.g) :
    ecg (sporeAgeCheck spec cell y x st).g ∧
    (∀ y' x', (y' ≠ y ∨ x' ≠ x) →
      getCell (sporeAgeCheck spec cell y x st).g y' x' = getCell st.g y' x') := by
  simp only [sporeAgeCheck]
  have h1 : ecg (gmod st.g y x fun c => { c with spore_age := cell.spore_age + 1 }) :=
    ecg_gmod_fieldsKeep (fun _ => ⟨rfl, rfl, rfl, rfl, rfl⟩) hec
  split_ifs with hcond
  · refine ⟨?_, ?_⟩
    · exact ecg_gmod_cleared
        (f := fun c => { c with cell_type := WATER, species_id := none, subtype := none, nutrient := 0, agent_id := none, spore_age := 0 })
        (fun _ => ⟨rfl, rfl, rfl, rfl⟩) h1
    · intro y' x' h
      exact (getCell_gmod_ne
        (fun c => { c with cell_type := WATER, species_id := none, subtype := none, nutrient := 0, agent_id := none, spore_age := 0 }) h).trans
        (getCell_gmod_ne (fun c => { c with spore_age := cell.spore_age + 1 }) h)
  · refine ⟨h1, ?_⟩
    intro y' x' h
    exact getCell_gmod_ne (fun c => { c with spore_age := cell.spore_age + 1 }) h

theorem driftMove_ec {old : Grid} {cell : Cell} {y x ty tx : ℕ} {st : AState}
    (hec : ecg st.g) (htw : (getCell old ty tx).cell_type = WATER) :
    ecg (driftMove cell y x ty tx st).g ∧
    stageFrame old y x st.g (driftMove cell y x ty tx st).g := by
  refine ⟨?_, ?_⟩
  · exact ecg_gmod_agentWrite
      (f := fun c => { c with cell_type := AGENT, species_id := cell.species_id, subtype := some SUBTYPE_SPORE, nutrient := cell.nutrient, age := cell.age + 1, agent_id := cell.agent_id, spore_age := cell.spore_age + 1 })
      (fun _ => rfl)
      (ecg_gmod_cleared
        (f := fun c => { c with cell_type := WATER, species_id := none, subtype := none, nutrient := 0, agent_id := none, spore_age := 0 })
        (fun _ => ⟨rfl, rfl, rfl, rfl⟩) hec)
  · intro y' x' hne hw
    exact (getCell_gmod_ne
      (fun c => { c with cell_type := AGENT, species_id := cell.species_id, subtype := some SUBTYPE_SPORE, nutrient := cell.nutrient, age := cell.age + 1, agent_id := cell.agent_id, spore_age := cell.spore_age + 1 }) (pos_ne_of_type_ne hw htw)).trans
      (getCell_gmod_ne
        (fun c => { c with cell_type := WATER, species_id := none, subtype := none, nutrient := 0, agent_id := none, spore_age := 0 }) hne)

theorem reproAttempts_ec {old : Grid} {spec : MarinePlantSpecies} {cell : Cell}
    {W H y x : ℕ} :
    ∀ (n : ℕ) (st : AState), ecg st.g →
      ecg (reproAttempts old spec cell W H y x n st).g ∧
      (∀ y' x', (getCell old y' x').cell_type ≠ WATER →
        getCell (reproAttempts old spec cell W H y x n st).g y' x' =
          getCell st.g y' x') := by
  intro n
  induction n with
  | zero =>
    intro st hec
    exact ⟨hec, fun _ _ _ => rfl⟩
  | succ n ih =>
    intro st hec
    simp only [reproAttempts]
    split_ifs with h1 h2
    · refine ⟨?_, ?_⟩
      · exact ecg_gmod_agentWrite
          (f := fun c => { c with cell_type := AGENT, species_id := cell.species_id, subtype := some SUBTYPE_SPORE, nutrient := qmul spec.initial_nutrient (mkRat 1 2), age := 0, agent_id := some st.nid, spore_age := 0 })
          (fun _ => rfl) hec
      · intro y' x' hw
        exact getCell_gmod_ne
          (fun c => { c with cell_type := AGENT, species_id := cell.species_id, subtype := some SUBTYPE_SPORE, nutrient := qmul spec.initial_nutrient (mkRat 1 2), age := 0, agent_id := some st.nid, spore_age := 0 })
          (pos_ne_of_type_ne hw h2.1)
    · exact ih { st with rng := (nextRandint (-3) 3 (nextRandint (-3) 3 st.rng).2).2 } hec
    · exact ih { st with rng := (nextRandint (-3) 3 (nextRandint (-3) 3 st.rng).2).2 } hec

theorem reproStage_ec {old : Grid} {spec : MarinePlantSpecies} {cell : Cell}
    {W H y x : ℕ} {st : AState}
    (hec : ecg st.g) (hag : (getCell st.g y x).cell_type = AGENT)
    (hagO : (getCell old y x).cell_type = AGENT) :
    ecg (reproStage old spec cell W H y x st).g ∧
    stageFrame old y x st.g (reproStage old spec cell W H y x st).g ∧
    (getCell (reproStage old spec cell W H y x st).g y x).cell_type = AGENT := by
  simp only [reproStage]
  split_ifs with h1
  · obtain ⟨he2, hf2⟩ :=
      reproAttempts_ec 5 { st with rng := (nextFloat st.rng).2 } hec
    have hkeep : getCell (reproAttempts old spec cell W H y x 5
        { st with rng := (nextFloat st.rng).2 }).g y x = getCell st.g y x :=
      hf2 y x (agent_type_ne_water hagO)
    have hag2 : (getCell (reproAttempts old spec cell W H y x 5
        { st with rng := (nextFloat st.rng).2 }).g y x).cell_type = AGENT := by
      rw [hkeep]; exact hag
    refine ⟨?_, ?_, ?_⟩
    · exact ecg_gmod_typeKeep
        (f := fun c => { c with nutrient := qsub c.nutrient (qmul spec.growth_threshold (mkRat 1 2)) })
        (fun _ => rfl) he2 hag2
    · intro y' x' hne hw
      exact (getCell_gmod_ne
        (fun c => { c with nutrient := qsub c.nutrient (qmul spec.growth_threshold (mkRat 1 2)) })
        hne).trans (hf2 y' x' hw)
    · exact gmod_agent_keep
        (f := fun c => { c with nutrient := qsub c.nutrient (qmul spec.growth_threshold (mkRat 1 2)) })
        (fun _ => rfl) hag2
  · exact ⟨hec, stageFrame_refl, hag⟩

/-- The two writes of a successful growth placement preserve the two-kinds
invariant, touch only the parent and a prior-Water cell, and keep the
parent Agent-typed. -/
theorem growthPlace_ec {old g : Grid} {cell : Cell} {y x a b s : ℕ} {q1 q2 : ℚ}
    (hec : ecg g) (hag : (getCell g y x).cell_type = AGENT)
    (hwo : (getCell old a b).cell_type = WATER)
    (hwn : (getCell g a b).cell_type = WATER) :
    ecg (gmod (gmod g a b fun c => { c with cell_type := AGENT, species_id := cell.species_id, subtype := some s, nutrient := q1, age := 0, agent_id := cell.agent_id }) y x fun c => { c with nutrient := qsub c.nutrient q2 }) ∧
    (∀ y' x', (y' ≠ y ∨ x' ≠ x) → (getCell old y' x').cell_type ≠ WATER →
      getCell (gmod (gmod g a b fun c => { c with cell_type := AGENT, species_id := cell.species_id, subtype := some s, nutrient := q1, age := 0, agent_id := cell.agent_id }) y x fun c => { c with nutrient := qsub c.nutrient q2 }) y' x' = getCell g y' x') ∧
    (getCell (gmod (gmod g a b fun c => { c with cell_type := AGENT, species_id := cell.species_id, subtype := some s, nutrient := q1, age := 0, agent_id := cell.agent_id }) y x fun c => { c with nutrient := qsub c.nutrient q2 }) y x).cell_type = AGENT := by
  have hne : y ≠ a ∨ x ≠ b := pos_ne_of_type hag hwn (by decide)
  have hag1 : (getCell (gmod g a b fun c => { c with cell_type := AGENT, species_id := cell.species_id, subtype := some s, nutrient := q1, age := 0, agent_id := cell.agent_id }) y x).cell_type = AGENT := by
    rw [getCell_gmod_ne (fun c => { c with cell_type := AGENT, species_id := cell.species_id, subtype := some s, nutrient := q1, age := 0, agent_id := cell.agent_id }) hne]
    exact hag
  refine ⟨?_, ?_, ?_⟩
  · exact ecg_gmod_typeKeep
      (f := fun c => { c with nutrient := qsub c.nutrient q2 }) (fun _ => rfl)
      (ecg_gmod_agentWrite
        (f := fun c => { c with cell_type := AGENT, species_id := cell.species_id, subtype := some s, nutrient := q1, age := 0, agent_id := cell.agent_id })
        (fun _ => rfl) hec) hag1
  · intro y' x' hy hw
    exact (getCell_gmod_ne (fun c => { c with nutrient := qsub c.nutrient q2 }) hy).trans
      (getCell_gmod_ne
        (fun c => { c with cell_type := AGENT, species_id := cell.species_id, subtype := some s, nutrient := q1, age := 0, agent_id := cell.agent_id })
        (pos_ne_of_type_ne hw hwo))
  · exact gmod_agent_keep
      (f := fun c => { c with nutrient := qsub c.nutrient q2 }) (fun _ => rfl) hag1

theorem growthTry_ec {old : Grid} {spec : MarinePlantSpecies} {cell : Cell}
    {W H y x : ℕ} :
    ∀ (dirs : List (ℤ × ℤ)) (st : AState), ecg st.g →
      (getCell st.g y x).cell_type = AGENT →
      ecg (growthTry old spec cell W H y x dirs st).g ∧
      (∀ y' x', (y' ≠ y ∨ x' ≠ x) → (getCell old y' x').cell_type ≠ WATER →
        getCell (growthTry old spec cell W H y x dirs st).g y' x' =
          getCell st.g y' x') ∧
      (getCell (growthTry old spec cell W H y x dirs st).g y x).cell_type = AGENT := by
  intro dirs
  induction dirs with
  | nil =>
    intro st hec hag
    exact ⟨hec, fun _ _ _ _ => rfl, hag⟩
  | cons d rest ih =>
    intro st hec hag
    simp only [growthTry]
    by_cases h1 : 0 ≤ (x : ℤ) + d.1 ∧ (x : ℤ) + d.1 < (W : ℤ) ∧
        0 ≤ (y : ℤ) + d.2 ∧ (y : ℤ) + d.2 < (H : ℤ)
    · rw [if_pos h1]
      by_cases h2 : (getCell old ((y : ℤ) + d.2).toNat ((x : ℤ) + d.1).toNat).cell_type = WATER ∧
          (getCell st.g ((y : ℤ) + d.2).toNat ((x : ℤ) + d.1).toNat).cell_type = WATER
      · rw [if_pos h2]
        exact growthPlace_ec hec hag h2.1 h2.2
      · rw [if_neg h2]
        exact ih st hec hag
    · rw [if_neg h1]
      exact ih st hec hag

theorem growthStage_ec {old : Grid} {spec : MarinePlantSpecies} {cell : Cell}
    {W H y x : ℕ} {st : AState}
    (hec : ecg st.g) (hag : (getCell st.g y x).cell_type = AGENT) :
    ecg (growthStage old spec cell W H y x st).g ∧
    (∀ y' x', (y' ≠ y ∨ x' ≠ x) → (getCell old y' x').cell_type ≠ WATER →
      getCell (growthStage old spec cell W H y x st).g y' x' =
        getCell st.g y' x') ∧
    (getCell (growthStage old spec cell W H y x st).g y x).cell_type = AGENT := by
  simp only [growthStage]
  split_ifs with h1
  · exact growthTry_ec (nextShuffle growthDirs st.rng).1
      { st with rng := (nextShuffle growthDirs st.rng).2 } hec hag
  · exact ⟨hec, fun _ _ _ _ => rfl, hag⟩

theorem sporeStage_ec {old : Grid} {spec : MarinePlantSpecies} {cell : Cell}
    {cur : Current} {W H y x : ℕ} {st : AState}
    (hec : ecg st.g) (hag : (getCell st.g y x).cell_type = AGENT) :
    ecg (resS (sporeStage old spec cell cur W H y x st)).g ∧
    stageFrame old y x st.g (resS (sporeStage old spec cell cur W H y x st)).g := by
  simp only [sporeStage]
  by_cases h1 : cell.subtype = some SUBTYPE_SPORE
  case neg =>
    rw [if_neg h1]
    exact ⟨hec, stageFrame_refl⟩
  rw [if_pos h1]
  by_cases h2 : y + 1 < H
  case neg =>
    rw [if_neg h2]
    obtain ⟨he, hf⟩ := @sporeAgeCheck_ec spec cell y x st hec
    exact ⟨he, fun y' x' hne _ => hf y' x' hne⟩
  rw [if_pos h2]
  by_cases h3 : spec.can_attach (getCell old (y + 1) x).cell_type = true
  case pos =>
    rw [if_pos h3]
    have hecA : ecg (gmod st.g y x fun c => { c with subtype := some SUBTYPE_ROOT, nutrient := qadd c.nutrient spec.initial_nutrient }) :=
      ecg_gmod_typeKeep
        (f := fun c => { c with subtype := some SUBTYPE_ROOT, nutrient := qadd c.nutrient spec.initial_nutrient })
        (fun _ => rfl) hec hag
    obtain ⟨he, hf⟩ := @sporeAgeCheck_ec spec cell y x
      { st with g := gmod st.g y x fun c => { c with subtype := some SUBTYPE_ROOT, nutrient := qadd c.nutrient spec.initial_nutrient } } hecA
    refine ⟨he, ?_⟩
    intro y' x' hne hw
    exact (hf y' x' hne).trans (getCell_gmod_ne
      (fun c => { c with subtype := some SUBTYPE_ROOT, nutrient := qadd c.nutrient spec.initial_nutrient }) hne)
  case neg =>
  rw [if_neg h3]
  by_cases h4 : 0 < cur.strength
  case neg =>
    rw [if_neg h4]
    obtain ⟨he, hf⟩ := @sporeAgeCheck_ec spec cell y x st hec
    exact ⟨he, fun y' x' hne _ => hf y' x' hne⟩
  rw [if_pos h4]
  by_cases h5 : (nextFloat st.rng).1 < cur.strength
  case neg =>
    rw [if_neg h5]
    obtain ⟨he, hf⟩ := @sporeAgeCheck_ec spec cell y x
      { st with rng := (nextFloat st.rng).2 } hec
    exact ⟨he, fun y' x' hne _ => hf y' x' hne⟩
  rw [if_pos h5]
  by_cases h6 : 0 ≤ (x : ℤ) + cur.dx ∧ (x : ℤ) + cur.dx < (W : ℤ) ∧
      0 ≤ (y : ℤ) + cur.dy ∧ (y : ℤ) + cur.dy < (H : ℤ)
  case neg =>
    rw [if_neg h6]
    obtain ⟨he, hf⟩ := @sporeAgeCheck_ec spec cell y x
      { st with rng := (nextFloat st.rng).2 } hec
    exact ⟨he, fun y' x' hne _ => hf y' x' hne⟩
  rw [if_pos h6]
  by_cases h7 : (getCell old ((y : ℤ) + cur.dy).toNat ((x : ℤ) + cur.dx).toNat).cell_type = WATER ∧
      (getCell ({ st with rng := (nextFloat st.rng).2 } : AState).g ((y : ℤ) + cur.dy).toNat ((x : ℤ) + cur.dx).toNat).cell_type = WATER
  case pos =>
    rw [if_pos h7]
    exact driftMove_ec hec h7.1
  case neg =>
    rw [if_neg h7]
    obtain ⟨he, hf⟩ := @sporeAgeCheck_ec spec cell y x
      { st with rng := (nextFloat st.rng).2 } hec
    exact ⟨he, fun y' x' hne _ => hf y' x' hne⟩

theorem processAgent_ec {old : Grid} {W H : ℕ} {cur : Current} {y x : ℕ}
    {st : AState} (hec : ecg st.g)
    (hag : (getCell old y x).cell_type = AGENT →
      (getCell st.g y x).cell_type = AGENT) :
    ecg (processAgent old W H cur y x st).1.g ∧
    stageFrame old y x st.g (processAgent old W H cur y x st).1.g := by
  by_cases hA : (getCell old y x).cell_type = AGENT
  case neg =>
    have hval : processAgent old W H cur y x st = (st, false) := by
      simp only [processAgent]
      rw [if_neg hA]
    rw [hval]
    exact ⟨hec, stageFrame_refl⟩
  case pos =>
  have hagN := hag hA
  obtain ⟨he1, hf1, ht1⟩ := @agingStage_ec (getCell old y x) y x st hec
  have hag1 : (getCell (agingStage (getCell old y x) y x st).g y x).cell_type = AGENT := by
    rw [ht1]; exact hagN
  rcases hr : rootStage old (species_defs ((getCell old y x).species_id.getD 0))
      (getCell old y x) H y x (agingStage (getCell old y x) y x st) with st2 | st2
  case inl =>
    obtain ⟨he2, hf2, _⟩ := @rootStage_ec old
      (species_defs ((getCell old y x).species_id.getD 0)) (getCell old y x) H y x
      (agingStage (getCell old y x) y x st) he1 hag1
    rw [hr] at he2 hf2
    simp only [resS, Sum.elim_inl, id_eq] at he2 hf2
    have hval : processAgent old W H cur y x st = (st2, false) := by
      simp only [processAgent]
      rw [if_pos hA, hr]
    rw [hval]
    exact ⟨he2, fun y' x' hne _ => (hf2 y' x' hne).trans (hf1 y' x' hne)⟩
  case inr =>
  obtain ⟨he2, hf2, hinr2⟩ := @rootStage_ec old
    (species_defs ((getCell old y x).species_id.getD 0)) (getCell old y x) H y x
    (agingStage (getCell old y x) y x st) he1 hag1
  rw [hr] at he2 hf2
  simp only [resS, Sum.elim_inr, id_eq] at he2 hf2
  have hag2 : (getCell st2.g y x).cell_type = AGENT := hinr2 st2 hr
  obtain ⟨he3, hf3, ht3⟩ := @lightStage_ec
    (species_defs ((getCell old y x).species_id.getD 0)) (getCell old y x) H y x st2
    he2 hag2
  rcases hd : deathStage (species_defs ((getCell old y x).species_id.getD 0)) y x
      (lightStage (species_defs ((getCell old y x).species_id.getD 0))
        (getCell old y x) H y x st2) with st4 | st4
  case inl =>
    obtain ⟨he4, hf4, _⟩ := @deathStage_ec
      (species_defs ((getCell old y x).species_id.getD 0)) y x
      (lightStage (species_defs ((getCell old y x).species_id.getD 0))
        (getCell old y x) H y x st2) he3
    rw [hd] at he4 hf4
    simp only [resS, Sum.elim_inl, id_eq] at he4 hf4
    have hval : processAgent old W H cur y x st = (st4, false) := by
      simp only [processAgent]
      rw [if_pos hA, hr]
      dsimp only
      rw [hd]
    rw [hval]
    refine ⟨he4, ?_⟩
    intro y' x' hne hw
    exact (((hf4 y' x' hne).trans (hf3 y' x' hne)).trans (hf2 y' x' hne)).trans
      (hf1 y' x' hne)
  case inr =>
  obtain ⟨he4, hf4, hinr4⟩ := @deathStage_ec
    (species_defs ((getCell old y x).species_id.getD 0)) y x
    (lightStage (species_defs ((getCell old y x).species_id.getD 0))
      (getCell old y x) H y x st2) he3
  rw [hd] at he4 hf4
  simp only [resS, Sum.elim_inr, id_eq] at he4 hf4
  have hd4eq : st4 = lightStage (species_defs ((getCell old y x).species_id.getD 0))
      (getCell old y x) H y x st2 := hinr4 st4 hd
  have hag4 : (getCell st4.g y x).cell_type = AGENT := by
    rw [hd4eq]; exact ht3
  obtain ⟨he5, hf5, ht5⟩ := @reproStage_ec old
    (species_defs ((getCell old y x).species_id.getD 0)) (getCell old y x) W H y x st4
    he4 hag4 hA
  obtain ⟨he6, hf6, ht6⟩ := @growthStage_ec old
    (species_defs ((getCell old y x).species_id.getD 0)) (getCell old y x) W H y x
    (reproStage old (species_defs ((getCell old y x).species_id.getD 0))
      (getCell old y x) W H y x st4)
    he5 ht5
  obtain ⟨he7, hf7⟩ := @sporeStage_ec old
    (species_defs ((getCell old y x).species_id.getD 0)) (getCell old y x) cur W H y x
    (growthStage old (species_defs ((getCell old y x).species_id.getD 0))
      (getCell old y x) W H y x
      (reproStage old (species_defs ((getCell old y x).species_id.getD 0))
        (getCell old y x) W H y x st4))
    he6 ht6
  rcases hs : sporeStage old (species_defs ((getCell old y x).species_id.getD 0))
      (getCell old y x) cur W H y x
      (growthStage old (species_defs ((getCell old y x).species_id.getD 0))
        (getCell old y x) W H y x
        (reproStage old (species_defs ((getCell old y x).species_id.getD 0))
          (getCell old y x) W H y x st4)) with st7 | st7
  case inl =>
    rw [hs] at he7 hf7
    simp only [resS, Sum.elim_inl, id_eq] at he7 hf7
    have hval : processAgent old W H cur y x st = (st7, true) := by
      simp only [processAgent]
      rw [if_pos hA, hr]
      dsimp only
      rw [hd]
      dsimp only
      rw [hs]
    rw [hval]
    refine ⟨he7, ?_⟩
    intro y' x' hne hw
    refine (((hf7 y' x' hne hw).trans (hf6 y' x' hne hw)).trans
      (hf5 y' x' hne hw)).trans ?_
    rw [hd4eq]
    exact (((hf3 y' x' hne).trans (hf2 y' x' hne))).trans (hf1 y' x' hne)
  case inr =>
    rw [hs] at he7 hf7
    simp only [resS, Sum.elim_inr, id_eq] at he7 hf7
    have hval : processAgent old W H cur y x st = (st7, false) := by
      simp only [processAgent]
      rw [if_pos hA, hr]
      dsimp only
      rw [hd]
      dsimp only
      rw [hs]
    rw [hval]
    refine ⟨he7, ?_⟩
    intro y' x' hne hw
    refine (((hf7 y' x' hne hw).trans (hf6 y' x' hne hw)).trans
      (hf5 y' x' hne hw)).trans ?_
    rw [hd4eq]
    exact (((hf3 y' x' hne).trans (hf2 y' x' hne))).trans (hf1 y' x' hne)

theorem agentRowGo_ec {old : Grid} {W H : ℕ} {cur : Current} {y : ℕ}
    {ys : List ℕ} (hyys : y ∉ ys) :
    ∀ (xs : List ℕ) (st : AState), xs.Nodup → ecg st.g →
      agOK old st.g (fun y' x' => (y' = y ∧ x' ∈ xs) ∨ y' ∈ ys) →
      ecg (agentRowGo old W H cur y xs st).g ∧
      agOK old (agentRowGo old W H cur y xs st).g (fun y' _ => y' ∈ ys) := by
  intro xs
  induction xs with
  | nil =>
    intro st _ hec hOK
    exact ⟨hec, fun y' x' hS hA => hOK y' x' (Or.inr hS) hA⟩
  | cons x xs ih =>
    intro st hnd hec hOK
    have hagx : (getCell old y x).cell_type = AGENT →
        (getCell st.g y x).cell_type = AGENT :=
      fun hA => hOK y x (Or.inl ⟨rfl, by simp⟩) hA
    obtain ⟨he, hf⟩ := @processAgent_ec old W H cur y x st hec hagx
    have hOK' : agOK old (processAgent old W H cur y x st).1.g
        (fun y' x' => (y' = y ∧ x' ∈ xs) ∨ y' ∈ ys) := by
      intro y' x' hS hA
      have hne : y' ≠ y ∨ x' ≠ x := by
        rcases hS with ⟨h1, h2⟩ | h1
        · right
          intro hxx
          exact (List.nodup_cons.mp hnd).1 (hxx ▸ h2)
        · left
          intro hyy
          exact hyys (hyy ▸ h1)
      rw [hf y' x' hne (agent_type_ne_water hA)]
      refine hOK y' x' ?_ hA
      rcases hS with ⟨h1, h2⟩ | h1
      · exact Or.inl ⟨h1, by simp [h2]⟩
      · exact Or.inr h1
    simp only [agentRowGo]
    by_cases hb : (processAgent old W H cur y x st).2 = true
    · rw [if_pos hb]
      exact ⟨he, fun y' x' hS hA => hOK' y' x' (Or.inr hS) hA⟩
    · rw [if_neg hb]
      exact ih (processAgent old W H cur y x st).1 (List.nodup_cons.mp hnd).2 he hOK'

theorem agentRows_ec {old : Grid} {W H : ℕ} {cur : Current} :
    ∀ (ys : List ℕ) (st : AState), ys.Nodup → ecg st.g →
      agOK old st.g (fun y' _ => y' ∈ ys) →
      ecg (ys.foldl (fun st y => agentRowGo old W H cur y (List.range W) st) st).g := by
  intro ys
  induction ys with
  | nil =>
    intro st _ hec _
    exact hec
  | cons y ys ih =>
    intro st hnd hec hOK
    rw [List.foldl_cons]
    have hOKinit : agOK old st.g
        (fun y' x' => (y' = y ∧ x' ∈ List.range W) ∨ y' ∈ ys) := by
      intro y' x' hS hA
      refine hOK y' x' ?_ hA
      rcases hS with ⟨h1, _⟩ | h1
      · exact List.mem_cons.mpr (Or.inl h1)
      · exact List.mem_cons.mpr (Or.inr h1)
    obtain ⟨he, hOK'⟩ := agentRowGo_ec (List.nodup_cons.mp hnd).1 (List.range W) st
      (List.nodup_range W) hec hOKinit
    exact ih _ (List.nodup_cons.mp hnd).2 he hOK'

theorem agentPass_ec {old : Grid} {W H : ℕ} {cur : Current} {st : AState}
    (hec : ecg st.g) (hOK : agOK old st.g fun y' _ => y' ∈ List.range H) :
    ecg (agentPass old W H cur st).g := by
  rw [agentPass]
  exact agentRows_ec (List.range H) st (List.nodup_range H) hec hOK

/-- **C5 (amended).** Every write of `step` that leaves an environment-typed
cell behind clears `species_id`, `subtype` and `agent_id` and zeroes
`nutrient`, so the separation of the two kinds is preserved for those four
fields — but NOT for `age`/`spore_age`, which the death writes leave stale
(see the counterexample). -/
theorem env_cells_carry_no_agent_identity (s : Sim)
    (hec : ∀ y x, envClean (getCell s.grid y x)) :
    ∀ y x, envClean (getCell (step s).grid y x) := by
  have hE : EInv s.grid s.grid := fun y x => ⟨hec y x, fun h => h⟩
  have hE1 : EInv s.grid (update_environment s.grid s.grid s.width s.height) :=
    update_environment_einv hE
  have hec1 : ecg (update_environment s.grid s.grid s.width s.height) :=
    fun y x => (hE1 y x).1
  have hOK : agOK s.grid (update_environment s.grid s.grid s.width s.height)
      (fun y' _ => y' ∈ List.range s.height) := by
    intro y' x' _ hA
    rw [update_environment_keeps (agent_type_ne_sand hA) (agent_type_ne_water hA)
      (agent_type_ne_lava hA)]
    exact hA
  have key := @agentPass_ec s.grid s.width s.height s.current
    ⟨update_environment s.grid s.grid s.width s.height, s.next_agent_id, s.rng⟩
    hec1 hOK
  exact fun y x => key y x

/-- Closed witness: `c5Sim` satisfies the two-kinds hypothesis, and the cell
at `(0,0)` after one step (the dead root's Water) carries no species,
subtype, id or nutrient. -/
theorem env_cells_carry_no_agent_identity_witness :
    envClean (getCell (step c5Sim).grid 0 0) :=
  env_cells_carry_no_agent_identity c5Sim
    (cellPred_of_forall_mem (P := envClean) (by unfold envClean; decide)
      (by unfold envClean; decide)) 0 0

/-! ### The agent stages preserve the id-allocation invariant -/

theorem agingStage_j {old : Grid} {cell : Cell} {y x : ℕ} {st : AState}
    (h : JInv old st) :
    JInv old (agingStage cell y x st) ∧ st.nid ≤ (agingStage cell y x st).nid := by
  refine ⟨⟨?_, h.2⟩, le_refl _⟩
  exact ib_gmod_keepId (f := fun c => { c with age := cell.age + 1 }) h.1 fun _ hc => hc

theorem rootStage_j {old : Grid} {spec : MarinePlantSpecies} {cell : Cell}
    {H y x : ℕ} {st : AState} (h : JInv old st) :
    JInv old (resS (rootStage old spec cell H y x st)) ∧
    st.nid ≤ (resS (rootStage old spec cell H y x st)).nid := by
  simp only [rootStage]
  split_ifs with h1 h2 h3
  · refine ⟨⟨?_, h.2⟩, le_refl _⟩
    exact ib_gmod_keepId
      (f := fun c => { c with nutrient := qadd cell.nutrient spec.substrate_absorb_rate })
      h.1 fun _ hc => hc
  · refine ⟨⟨?_, h.2⟩, le_refl _⟩
    exact ib_gmod_keepId (f := clearToWater) h.1 fun _ _ => Or.inl rfl
  · refine ⟨⟨?_, h.2⟩, le_refl _⟩
    exact ib_gmod_keepId (f := clearToWater) h.1 fun _ _ => Or.inl rfl
  · exact ⟨h, le_refl _⟩

theorem lightStage_j {spec : MarinePlantSpecies} {cell : Cell} {old : Grid}
    {H y x : ℕ} {st : AState} (h : JInv old st) :
    JInv old (lightStage spec cell H y x st) ∧
    st.nid ≤ (lightStage spec cell H y x st).nid := by
  simp only [lightStage]
  split_ifs with h1
  · refine ⟨⟨?_, h.2⟩, le_refl _⟩
    exact ib_gmod_keepId
      (f := fun c => { c with nutrient := qadd c.nutrient (qmax 0 (qmul (qmul (mkRat (H - 1 - y : ℕ) 1) spec.light_absorb_rate) (mkRat 1 10))) })
      h.1 fun _ hc => hc
  · exact ⟨h, le_refl _⟩

theorem deathStage_j {spec : MarinePlantSpecies} {old : Grid} {y x : ℕ}
    {st : AState} (h : JInv old st) :
    JInv old (resS (deathStage spec y x st)) ∧
    st.nid ≤ (resS (deathStage spec y x st)).nid := by
  simp only [deathStage]
  split_ifs with h1 h2
  · refine ⟨⟨?_, h.2⟩, le_refl _⟩
    exact ib_gmod_keepId
      (f := fun c => { c with cell_type := SAND, nutrient := 0, species_id := none, subtype := none, agent_id := none })
      h.1 fun _ _ => Or.inl rfl
  · refine ⟨⟨?_, h.2⟩, le_refl _⟩
    exact ib_gmod_keepId
      (f := fun c => { c with cell_type := WATER, nutrient := 0, species_id := none, subtype := none, agent_id := none })
      h.1 fun _ _ => Or.inl rfl
  · exact ⟨h, le_refl _⟩

theorem sporeAgeCheck_j {spec : MarinePlantSpecies} {cell : Cell} {old : Grid}
    {y x : ℕ} {st : AState} (h : JInv old st) :
    JInv old (sporeAgeCheck spec cell y x st) ∧
    st.nid ≤ (sporeAgeCheck spec cell y x st).nid := by
  simp only [sporeAgeCheck]
  have h1 : ibg st.nid (gmod st.g y x fun c => { c with spore_age := cell.spore_age + 1 }) :=
    ib_gmod_keepId (f := fun c => { c with spore_age := cell.spore_age + 1 }) h.1
      fun _ hc => hc
  split_ifs with hcond
  · refine ⟨⟨?_, h.2⟩, le_refl _⟩
    exact ib_gmod_keepId
      (f := fun c => { c with cell_type := WATER, species_id := none, subtype := none, nutrient := 0, agent_id := none, spore_age := 0 })
      h1 fun _ _ => Or.inl rfl
  · exact ⟨⟨h1, h.2⟩, le_refl _⟩

theorem driftMove_j {old : Grid} {cell : Cell} {y x ty tx : ℕ} {st : AState}
    (h : JInv old st) (hcell : idBound st.nid cell) :
    JInv old (driftMove cell y x ty tx st) ∧
    st.nid ≤ (driftMove cell y x ty tx st).nid := by
  refine ⟨⟨?_, h.2⟩, le_refl _⟩
  exact ib_gmod_keepId
    (f := fun c => { c with cell_type := AGENT, species_id := cell.species_id, subtype := some SUBTYPE_SPORE, nutrient := cell.nutrient, age := cell.age + 1, agent_id := cell.agent_id, spore_age := cell.spore_age + 1 })
    (ib_gmod_keepId
      (f := fun c => { c with cell_type := WATER, species_id := none, subtype := none, nutrient := 0, agent_id := none, spore_age := 0 })
      h.1 fun _ _ => Or.inl rfl)
    fun _ _ => hcell

theorem sporeStage_j {old : Grid} {spec : MarinePlantSpecies} {cell : Cell}
    {cur : Current} {W H y x : ℕ} {st : AState}
    (h : JInv old st) (hcell : idBound st.nid cell) :
    JInv old (resS (sporeStage old spec cell cur W H y x st)) ∧
    st.nid ≤ (resS (sporeStage old spec cell cur W H y x st)).nid := by
  simp only [sporeStage]
  by_cases h1 : cell.subtype = some SUBTYPE_SPORE
  case neg =>
    rw [if_neg h1]
    exact ⟨h, le_refl _⟩
  rw [if_pos h1]
  by_cases h2 : y + 1 < H
  case neg =>
    rw [if_neg h2]
    exact @sporeAgeCheck_j spec cell old y x st h
  rw [if_pos h2]
  by_cases h3 : spec.can_attach (getCell old (y + 1) x).cell_type = true
  case pos =>
    rw [if_pos h3]
    have hI : JInv old { st with g := gmod st.g y x fun c => { c with subtype := some SUBTYPE_ROOT, nutrient := qadd c.nutrient spec.initial_nutrient } } := by
      refine ⟨?_, h.2⟩
      exact ib_gmod_keepId
        (f := fun c => { c with subtype := some SUBTYPE_ROOT, nutrient := qadd c.nutrient spec.initial_nutrient })
        h.1 fun _ hc => hc
    exact @sporeAgeCheck_j spec cell old y x
      { st with g := gmod st.g y x fun c => { c with subtype := some SUBTYPE_ROOT, nutrient := qadd c.nutrient spec.initial_nutrient } } hI
  case neg =>
  rw [if_neg h3]
  by_cases h4 : 0 < cur.strength
  case neg =>
    rw [if_neg h4]
    exact @sporeAgeCheck_j spec cell old y x st h
  rw [if_pos h4]
  by_cases h5 : (nextFloat st.rng).1 < cur.strength
  case neg =>
    rw [if_neg h5]
    exact @sporeAgeCheck_j spec cell old y x { st with rng := (nextFloat st.rng).2 } h
  rw [if_pos h5]
  by_cases h6 : 0 ≤ (x : ℤ) + cur.dx ∧ (x : ℤ) + cur.dx < (W : ℤ) ∧
      0 ≤ (y : ℤ) + cur.dy ∧ (y : ℤ) + cur.dy < (H : ℤ)
  case neg =>
    rw [if_neg h6]
    exact @sporeAgeCheck_j spec cell old y x { st with rng := (nextFloat st.rng).2 } h
  rw [if_pos h6]
  by_cases h7 : (getCell old ((y : ℤ) + cur.dy).toNat ((x : ℤ) + cur.dx).toNat).cell_type = WATER ∧
      (getCell ({ st with rng := (nextFloat st.rng).2 } : AState).g ((y : ℤ) + cur.dy).toNat ((x : ℤ) + cur.dx).toNat).cell_type = WATER
  case pos =>
    rw [if_pos h7]
    exact @driftMove_j old cell y x ((y : ℤ) + cur.dy).toNat ((x : ℤ) + cur.dx).toNat
      { st with rng := (nextFloat st.rng).2 } h hcell
  case neg =>
    rw [if_neg h7]
    exact @sporeAgeCheck_j spec cell old y x { st with rng := (nextFloat st.rng).2 } h

theorem reproAttempts_j {old : Grid} {spec : MarinePlantSpecies} {cell : Cell}
    {W H y x : ℕ} :
    ∀ (n : ℕ) (st : AState), JInv old st →
      JInv old (reproAttempts old spec cell W H y x n st) ∧
      st.nid ≤ (reproAttempts old spec cell W H y x n st).nid := by
  intro n
  induction n with
  | zero =>
    intro st h
    exact ⟨h, le_refl _⟩
  | succ n ih =>
    intro st h
    simp only [reproAttempts]
    split_ifs with h1 h2
    · refine ⟨⟨?_, ibg_mono (Nat.le_succ _) h.2⟩, Nat.le_succ _⟩
      refine inv_gmod (P := idBound (st.nid + 1))
        (f := fun c => { c with cell_type := AGENT, species_id := cell.species_id, subtype := some SUBTYPE_SPORE, nutrient := qmul spec.initial_nutrient (mkRat 1 2), age := 0, agent_id := some st.nid, spore_age := 0 })
        (fun y' x' => idBound_mono (Nat.le_succ _) (h.1 y' x')) ?_
      exact Or.inr (Nat.lt_succ_self _)
    · exact ih { st with rng := (nextRandint (-3) 3 (nextRandint (-3) 3 st.rng).2).2 } h
    · exact ih { st with rng := (nextRandint (-3) 3 (nextRandint (-3) 3 st.rng).2).2 } h

theorem reproStage_j {old : Grid} {spec : MarinePlantSpecies} {cell : Cell}
    {W H y x : ℕ} {st : AState} (h : JInv old st) :
    JInv old (reproStage old spec cell W H y x st) ∧
    st.nid ≤ (reproStage old spec cell W H y x st).nid := by
  simp only [reproStage]
  split_ifs with h1
  · obtain ⟨hJ, hle⟩ := reproAttempts_j 5 { st with rng := (nextFloat st.rng).2 } h
    refine ⟨⟨?_, hJ.2⟩, hle⟩
    exact ib_gmod_keepId
      (f := fun c => { c with nutrient := qsub c.nutrient (qmul spec.growth_threshold (mkRat 1 2)) })
      hJ.1 fun _ hc => hc
  · exact ⟨h, le_refl _⟩

theorem growthTry_j {old : Grid} {spec : MarinePlantSpecies} {cell : Cell}
    {W H y x : ℕ} :
    ∀ (dirs : List (ℤ × ℤ)) (st : AState), JInv old st → idBound st.nid cell →
      JInv old (growthTry old spec cell W H y x dirs st) ∧
      st.nid ≤ (growthTry old spec cell W H y x dirs st).nid := by
  intro dirs
  induction dirs with
  | nil =>
    intro st h _
    exact ⟨h, le_refl _⟩
  | cons d rest ih =>
    intro st h hcell
    simp only [growthTry]
    by_cases h1 : 0 ≤ (x : ℤ) + d.1 ∧ (x : ℤ) + d.1 < (W : ℤ) ∧
        0 ≤ (y : ℤ) + d.2 ∧ (y : ℤ) + d.2 < (H : ℤ)
    · rw [if_pos h1]
      by_cases h2 : (getCell old ((y : ℤ) + d.2).toNat ((x : ℤ) + d.1).toNat).cell_type = WATER ∧
          (getCell st.g ((y : ℤ) + d.2).toNat ((x : ℤ) + d.1).toNat).cell_type = WATER
      · rw [if_pos h2]
        refine ⟨⟨?_, h.2⟩, le_refl _⟩
        refine ib_gmod_keepId
          (f := fun c => { c with nutrient := qsub c.nutrient (qmul spec.growth_threshold (mkRat 7 10)) })
          ?_ fun _ hc => hc
        refine inv_gmod (P := idBound st.nid) h.1 ?_
        exact hcell
      · rw [if_neg h2]
        exact ih st h hcell
    · rw [if_neg h1]
      exact ih st h hcell

theorem growthStage_j {old : Grid} {spec : MarinePlantSpecies} {cell : Cell}
    {W H y x : ℕ} {st : AState} (h : JInv old st) (hcell : idBound st.nid cell) :
    JInv old (growthStage old spec cell W H y x st) ∧
    st.nid ≤ (growthStage old spec cell W H y x st).nid := by
  simp only [growthStage]
  split_ifs with h1
  · exact growthTry_j (nextShuffle growthDirs st.rng).1
      { st with rng := (nextShuffle growthDirs st.rng).2 } h hcell
  · exact ⟨h, le_refl _⟩

theorem processAgent_j {old : Grid} {W H : ℕ} {cur : Current} {y x : ℕ}
    {st : AState} (h : JInv old st) :
    JInv old (processAgent old W H cur y x st).1 ∧
    st.nid ≤ (processAgent old W H cur y x st).1.nid := by
  by_cases hA : (getCell old y x).cell_type = AGENT
  case neg =>
    have hval : processAgent old W H cur y x st = (st, false) := by
      simp only [processAgent]
      rw [if_neg hA]
    rw [hval]
    exact ⟨h, le_refl _⟩
  case pos =>
  obtain ⟨hJ1, _⟩ := @agingStage_j old (getCell old y x) y x st h
  rcases hr : rootStage old (species_defs ((getCell old y x).species_id.getD 0))
      (getCell old y x) H y x (agingStage (getCell old y x) y x st) with st2 | st2
  case inl =>
    obtain ⟨hJ2, hle2⟩ := @rootStage_j old
      (species_defs ((getCell old y x).species_id.getD 0)) (getCell old y x) H y x
      (agingStage (getCell old y x) y x st) hJ1
    rw [hr] at hJ2 hle2
    simp only [resS, Sum.elim_inl, id_eq] at hJ2 hle2
    have hval : processAgent old W H cur y x st = (st2, false) := by
      simp only [processAgent]
      rw [if_pos hA, hr]
    rw [hval]
    exact ⟨hJ2, hle2⟩
  case inr =>
  obtain ⟨hJ2, hle2⟩ := @rootStage_j old
    (species_defs ((getCell old y x).species_id.getD 0)) (getCell old y x) H y x
    (agingStage (getCell old y x) y x st) hJ1
  rw [hr] at hJ2 hle2
  simp only [resS, Sum.elim_inr, id_eq] at hJ2 hle2
  obtain ⟨hJ3, hle3⟩ := @lightStage_j
    (species_defs ((getCell old y x).species_id.getD 0)) (getCell old y x) old H y x
    st2 hJ2
  rcases hd : deathStage (species_defs ((getCell old y x).species_id.getD 0)) y x
      (lightStage (species_defs ((getCell old y x).species_id.getD 0))
        (getCell old y x) H y x st2) with st4 | st4
  case inl =>
    obtain ⟨hJ4, hle4⟩ := @deathStage_j
      (species_defs ((getCell old y x).species_id.getD 0)) old y x
      (lightStage (species_defs ((getCell old y x).species_id.getD 0))
        (getCell old y x) H y x st2) hJ3
    rw [hd] at hJ4 hle4
    simp only [resS, Sum.elim_inl, id_eq] at hJ4 hle4
    have hval : processAgent old W H cur y x st = (st4, false) := by
      simp only [processAgent]
      rw [if_pos hA, hr]
      dsimp only
      rw [hd]
    rw [hval]
    exact ⟨hJ4, le_trans hle2 (le_trans hle3 hle4)⟩
  case inr =>
  obtain ⟨hJ4, hle4⟩ := @deathStage_j
    (species_defs ((getCell old y x).species_id.getD 0)) old y x
    (lightStage (species_defs ((getCell old y x).species_id.getD 0))
      (getCell old y x) H y x st2) hJ3
  rw [hd] at hJ4 hle4
  simp only [resS, Sum.elim_inr, id_eq] at hJ4 hle4
  obtain ⟨hJ5, hle5⟩ := @reproStage_j old
    (species_defs ((getCell old y x).species_id.getD 0)) (getCell old y x) W H y x
    st4 hJ4
  obtain ⟨hJ6, hle6⟩ := @growthStage_j old
    (species_defs ((getCell old y x).species_id.getD 0)) (getCell old y x) W H y x
    (reproStage old (species_defs ((getCell old y x).species_id.getD 0))
      (getCell old y x) W H y x st4)
    hJ5 (hJ5.2 y x)
  obtain ⟨hJ7, hle7⟩ := @sporeStage_j old
    (species_defs ((getCell old y x).species_id.getD 0)) (getCell old y x) cur W H y x
    (growthStage old (species_defs ((getCell old y x).species_id.getD 0))
      (getCell old y x) W H y x
      (reproStage old (species_defs ((getCell old y x).species_id.getD 0))
        (getCell old y x) W H y x st4))
    hJ6 (hJ6.2 y x)
  rcases hs : sporeStage old (species_defs ((getCell old y x).species_id.getD 0))
      (getCell old y x) cur W H y x
      (growthStage old (species_defs ((getCell old y x).species_id.getD 0))
        (getCell old y x) W H y x
        (reproStage old (species_defs ((getCell old y x).species_id.getD 0))
          (getCell old y x) W H y x st4)) with st7 | st7
  case inl =>
    rw [hs] at hJ7 hle7
    simp only [resS, Sum.elim_inl, id_eq] at hJ7 hle7
    have hval : processAgent old W H cur y x st = (st7, true) := by
      simp only [processAgent]
      rw [if_pos hA, hr]
      dsimp only
      rw [hd]
      dsimp only
      rw [hs]
    rw [hval]
    exact ⟨hJ7, le_trans hle2 (le_trans hle3 (le_trans hle4
      (le_trans hle5 (le_trans hle6 hle7))))⟩
  case inr =>
    rw [hs] at hJ7 hle7
    simp only [resS, Sum.elim_inr, id_eq] at hJ7 hle7
    have hval : processAgent old W H cur y x st = (st7, false) := by
      simp only [processAgent]
      rw [if_pos hA, hr]
      dsimp only
      rw [hd]
      dsimp only
      rw [hs]
    rw [hval]
    exact ⟨hJ7, le_trans hle2 (le_trans hle3 (le_trans hle4
      (le_trans hle5 (le_trans hle6 hle7))))⟩

theorem agentRowGo_j {old : Grid} {W H : ℕ} {cur : Current} {y : ℕ} :
    ∀ (xs : List ℕ) (st : AState), JInv old st →
      JInv old (agentRowGo old W H cur y xs st) ∧
      st.nid ≤ (agentRowGo old W H cur y xs st).nid := by
  intro xs
  induction xs with
  | nil =>
    intro st h
    exact ⟨h, le_refl _⟩
  | cons x xs ih =>
    intro st h
    obtain ⟨hJ, hle⟩ := @processAgent_j old W H cur y x st h
    simp only [agentRowGo]
    by_cases hb : (processAgent old W H cur y x st).2 = true
    · rw [if_pos hb]
      exact ⟨hJ, hle⟩
    · rw [if_neg hb]
      obtain ⟨hJ', hle'⟩ := ih (processAgent old W H cur y x st).1 hJ
      exact ⟨hJ', le_trans hle hle'⟩

theorem agentRows_j {old : Grid} {W H : ℕ} {cur : Current} :
    ∀ (ys : List ℕ) (st : AState), JInv old st →
      JInv old (ys.foldl (fun st y => agentRowGo old W H cur y (List.range W) st) st) ∧
      st.nid ≤ (ys.foldl (fun st y => agentRowGo old W H cur y (List.range W) st) st).nid := by
  intro ys
  induction ys with
  | nil =>
    intro st h
    exact ⟨h, le_refl _⟩
  | cons y ys ih =>
    intro st h
    rw [List.foldl_cons]
    obtain ⟨hJ, hle⟩ := agentRowGo_j (List.range W) st h
    obtain ⟨hJ', hle'⟩ := ih (agentRowGo old W H cur y (List.range W) st) hJ
    exact ⟨hJ', le_trans hle hle'⟩

theorem agentPass_j {old : Grid} {W H : ℕ} {cur : Current} {st : AState}
    (h : JInv old st) :
    JInv old (agentPass old W H cur st) ∧ st.nid ≤ (agentPass old W H cur st).nid := by
  rw [agentPass]
  exact agentRows_j (List.range H) st h

/-! ### Organism-id bookkeeping of the creation sub-rules -/

/-- A growth placement changes, besides the parent, only the new cell, and
that cell carries the parent's organism id. -/
theorem growthPlace_id {g : Grid} {cell : Cell} {y x a b s : ℕ} {q1 q2 : ℚ}
    {y' x' : ℕ} (hne : y' ≠ y ∨ x' ≠ x)
    (hch : getCell (gmod (gmod g a b fun c => { c with cell_type := AGENT, species_id := cell.species_id, subtype := some s, nutrient := q1, age := 0, agent_id := cell.agent_id }) y x fun c => { c with nutrient := qsub c.nutrient q2 }) y' x' ≠ getCell g y' x') :
    (getCell (gmod (gmod g a b fun c => { c with cell_type := AGENT, species_id := cell.species_id, subtype := some s, nutrient := q1, age := 0, agent_id := cell.agent_id }) y x fun c => { c with nutrient := qsub c.nutrient q2 }) y' x').agent_id = cell.agent_id := by
  rw [getCell_gmod_ne _ hne] at hch ⊢
  rcases getCell_gmod_cases g a b y' x'
    (fun c => { c with cell_type := AGENT, species_id := cell.species_id, subtype := some s, nutrient := q1, age := 0, agent_id := cell.agent_id }) with h | ⟨_, _, h⟩
  · exact absurd h hch
  · rw [h]

theorem growthTry_nid {old : Grid} {spec : MarinePlantSpecies} {cell : Cell}
    {W H y x : ℕ} :
    ∀ (dirs : List (ℤ × ℤ)) (st : AState),
      (growthTry old spec cell W H y x dirs st).nid = st.nid := by
  intro dirs
  induction dirs with
  | nil => intro st; rfl
  | cons d rest ih =>
    intro st
    simp only [growthTry]
    by_cases h1 : 0 ≤ (x : ℤ) + d.1 ∧ (x : ℤ) + d.1 < (W : ℤ) ∧
        0 ≤ (y : ℤ) + d.2 ∧ (y : ℤ) + d.2 < (H : ℤ)
    · rw [if_pos h1]
      by_cases h2 : (getCell old ((y : ℤ) + d.2).toNat ((x : ℤ) + d.1).toNat).cell_type = WATER ∧
          (getCell st.g ((y : ℤ) + d.2).toNat ((x : ℤ) + d.1).toNat).cell_type = WATER
      · rw [if_pos h2]
      · rw [if_neg h2]
        exact ih st
    · rw [if_neg h1]
      exact ih st

theorem growthTry_created {old : Grid} {spec : MarinePlantSpecies} {cell : Cell}
    {W H y x : ℕ} :
    ∀ (dirs : List (ℤ × ℤ)) (st : AState) (y' x' : ℕ), (y' ≠ y ∨ x' ≠ x) →
      getCell (growthTry old spec cell W H y x dirs st).g y' x' ≠ getCell st.g y' x' →
      (getCell (growthTry old spec cell W H y x dirs st).g y' x').agent_id =
        cell.agent_id := by
  intro dirs
  induction dirs with
  | nil =>
    intro st y' x' _ hch
    exact absurd rfl hch
  | cons d rest ih =>
    intro st y' x' hne hch
    simp only [growthTry] at hch ⊢
    by_cases h1 : 0 ≤ (x : ℤ) + d.1 ∧ (x : ℤ) + d.1 < (W : ℤ) ∧
        0 ≤ (y : ℤ) + d.2 ∧ (y : ℤ) + d.2 < (H : ℤ)
    · rw [if_pos h1] at hch ⊢
      by_cases h2 : (getCell old ((y : ℤ) + d.2).toNat ((x : ℤ) + d.1).toNat).cell_type = WATER ∧
          (getCell st.g ((y : ℤ) + d.2).toNat ((x : ℤ) + d.1).toNat).cell_type = WATER
      · rw [if_pos h2] at hch ⊢
        exact growthPlace_id hne hch
      · rw [if_neg h2] at hch ⊢
        exact ih st y' x' hne hch
    · rw [if_neg h1] at hch ⊢
      exact ih st y' x' hne hch

theorem reproAttempts_nid_cases {old : Grid} {spec : MarinePlantSpecies}
    {cell : Cell} {W H y x : ℕ} :
    ∀ (n : ℕ) (st : AState),
      (reproAttempts old spec cell W H y x n st).nid = st.nid ∨
      (reproAttempts old spec cell W H y x n st).nid = st.nid + 1 := by
  intro n
  induction n with
  | zero => intro st; exact Or.inl rfl
  | succ n ih =>
    intro st
    simp only [reproAttempts]
    split_ifs with h1 h2
    · exact Or.inr rfl
    · exact ih { st with rng := (nextRandint (-3) 3 (nextRandint (-3) 3 st.rng).2).2 }
    · exact ih { st with rng := (nextRandint (-3) 3 (nextRandint (-3) 3 st.rng).2).2 }

theorem reproAttempts_created {old : Grid} {spec : MarinePlantSpecies}
    {cell : Cell} {W H y x : ℕ} :
    ∀ (n : ℕ) (st : AState) (y' x' : ℕ),
      getCell (reproAttempts old spec cell W H y x n st).g y' x' ≠
        getCell st.g y' x' →
      (getCell (reproAttempts old spec cell W H y x n st).g y' x').agent_id =
        some st.nid ∧
      (reproAttempts old spec cell W H y x n st).nid = st.nid + 1 := by
  intro n
  induction n with
  | zero =>
    intro st y' x' hch
    exact absurd rfl hch
  | succ n ih =>
    intro st y' x' hch
    simp only [reproAttempts] at hch ⊢
    split_ifs with h1 h2
    · rw [if_pos h1, if_pos h2] at hch
      refine ⟨?_, rfl⟩
      rcases getCell_gmod_cases ({ st with rng := (nextRandint (-3) 3 (nextRandint (-3) 3 st.rng).2).2 } : AState).g
        ((y : ℤ) + (nextRandint (-3) 3 (nextRandint (-3) 3 st.rng).2).1).toNat
        ((x : ℤ) + (nextRandint (-3) 3 st.rng).1).toNat y' x'
        (fun c => { c with cell_type := AGENT, species_id := cell.species_id, subtype := some SUBTYPE_SPORE, nutrient := qmul spec.initial_nutrient (mkRat 1 2), age := 0, agent_id := some st.nid, spore_age := 0 }) with h | ⟨_, _, h⟩
      · exact absurd h hch
      · rw [h]
    · rw [if_pos h1, if_neg h2] at hch
      exact ih { st with rng := (nextRandint (-3) 3 (nextRandint (-3) 3 st.rng).2).2 } y' x' hch
    · rw [if_neg h1] at hch
      exact ih { st with rng := (nextRandint (-3) 3 (nextRandint (-3) 3 st.rng).2).2 } y' x' hch

/-- `plant_seed` allocates one id: on failure it is a strict no-op, on
success it bumps the allocator exactly once and every changed cell carries
the fresh id. -/
theorem plant_seed_id (s : Sim) (x y sid : ℕ) :
    (((plant_seed s x y sid).1 = true →
        (plant_seed s x y sid).2.next_agent_id = s.next_agent_id + 1) ∧
      ((plant_seed s x y sid).1 = false → (plant_seed s x y sid).2 = s)) ∧
    (∀ y' x', getCell (plant_seed s x y sid).2.grid y' x' ≠ getCell s.grid y' x' →
      (getCell (plant_seed s x y sid).2.grid y' x').agent_id =
        some s.next_agent_id) := by
  simp only [plant_seed]
  by_cases hatt : (species_defs sid).can_attach
      (if y + 1 < s.height then (getCell s.grid (y + 1) x).cell_type else WATER) = true
  · rw [if_pos hatt]
    refine ⟨⟨fun _ => rfl, fun h => Bool.noConfusion h⟩, ?_⟩
    intro y' x' hch
    by_cases hstem : 1 ≤ y ∧
        (getCell (gmod s.grid y x fun c => { c with cell_type := AGENT, species_id := some sid, subtype := some SUBTYPE_ROOT, nutrient := (species_defs sid).initial_nutrient, age := 0, agent_id := some s.next_agent_id }) (y - 1) x).cell_type = WATER
    · rw [if_pos hstem] at hch ⊢
      rcases getCell_gmod_cases
        (gmod s.grid y x fun c => { c with cell_type := AGENT, species_id := some sid, subtype := some SUBTYPE_ROOT, nutrient := (species_defs sid).initial_nutrient, age := 0, agent_id := some s.next_agent_id })
        (y - 1) x y' x'
        (fun c => { c with cell_type := AGENT, species_id := some sid, subtype := some SUBTYPE_STEM, nutrient := qmul (species_defs sid).initial_nutrient (mkRat 1 2), age := 0, agent_id := some s.next_agent_id }) with h | ⟨_, _, h⟩
      · rw [h] at hch ⊢
        rcases getCell_gmod_cases s.grid y x y' x'
          (fun c => { c with cell_type := AGENT, species_id := some sid, subtype := some SUBTYPE_ROOT, nutrient := (species_defs sid).initial_nutrient, age := 0, agent_id := some s.next_agent_id }) with h2 | ⟨_, _, h2⟩
        · exact absurd h2 hch
        · rw [h2]
      · rw [h]
    · rw [if_neg hstem] at hch ⊢
      rcases getCell_gmod_cases s.grid y x y' x'
        (fun c => { c with cell_type := AGENT, species_id := some sid, subtype := some SUBTYPE_ROOT, nutrient := (species_defs sid).initial_nutrient, age := 0, agent_id := some s.next_agent_id }) with h2 | ⟨_, _, h2⟩
      · exact absurd h2 hch
      · rw [h2]
  · rw [if_neg hatt]
    refine ⟨⟨fun h => Bool.noConfusion h, fun _ => rfl⟩, ?_⟩
    intro y' x' hch
    exact absurd rfl hch

/-- **C7.** Organism-id allocation: (1) every cell changed by the Growth
sub-rule other than the parent itself carries the parent's organism id, and
growth never advances the allocator; (2) one reproduction event advances
the allocator at most once, and when it places a spore the changed cell
carries exactly the pre-event allocator value and the allocator advances by
exactly one (so the spawned id equals the fresh counter); (3) `plant_seed`
is a strict no-op on failure, and on success advances the allocator exactly
once with every changed cell carrying the fresh id; (4) a `step` keeps
every organism id in the grid strictly below the allocator and never
decreases the allocator — so an id assigned from the counter has never
before appeared in the grid. -/
theorem organism_id_allocation :
    (∀ (old : Grid) (spec : MarinePlantSpecies) (cell : Cell) (W H y x : ℕ)
      (dirs : List (ℤ × ℤ)) (st : AState) (y' x' : ℕ),
      (y' ≠ y ∨ x' ≠ x) →
      getCell (growthTry old spec cell W H y x dirs st).g y' x' ≠
        getCell st.g y' x' →
      (getCell (growthTry old spec cell W H y x dirs st).g y' x').agent_id =
        cell.agent_id ∧
      (growthTry old spec cell W H y x dirs st).nid = st.nid) ∧
    (∀ (old : Grid) (spec : MarinePlantSpecies) (cell : Cell) (W H y x n : ℕ)
      (st : AState),
      ((reproAttempts old spec cell W H y x n st).nid = st.nid ∨
        (reproAttempts old spec cell W H y x n st).nid = st.nid + 1) ∧
      (∀ y' x',
        getCell (reproAttempts old spec cell W H y x n st).g y' x' ≠
          getCell st.g y' x' →
        (getCell (reproAttempts old spec cell W H y x n st).g y' x').agent_id =
          some st.nid ∧
        (reproAttempts old spec cell W H y x n st).nid = st.nid + 1)) ∧
    (∀ (s : Sim) (x y sid : ℕ),
      (((plant_seed s x y sid).1 = true →
          (plant_seed s x y sid).2.next_agent_id = s.next_agent_id + 1) ∧
        ((plant_seed s x y sid).1 = false → (plant_seed s x y sid).2 = s)) ∧
      (∀ y' x', getCell (plant_seed s x y sid).2.grid y' x' ≠ getCell s.grid y' x' →
        (getCell (plant_seed s x y sid).2.grid y' x').agent_id =
          some s.next_agent_id)) ∧
    (∀ s : Sim, ibg s.next_agent_id s.grid →
      ibg (step s).next_agent_id (step s).grid ∧
      s.next_agent_id ≤ (step s).next_agent_id) := by
  refine ⟨?_, ?_, ?_, ?_⟩
  · intro old spec cell W H y x dirs st y' x' hne hch
    exact ⟨growthTry_created dirs st y' x' hne hch, growthTry_nid dirs st⟩
  · intro old spec cell W H y x n st
    exact ⟨reproAttempts_nid_cases n st, fun y' x' hch =>
      reproAttempts_created n st y' x' hch⟩
  · intro s x y sid
    exact plant_seed_id s x y sid
  · intro s h
    have hib1 : ibg s.next_agent_id
        (update_environment s.grid s.grid s.width s.height) :=
      update_environment_ib h
    have key := @agentPass_j s.grid s.width s.height s.current
      ⟨update_environment s.grid s.grid s.width s.height, s.next_agent_id, s.rng⟩
      ⟨hib1, h⟩
    exact ⟨key.1.1, key.2⟩

/-- Closed witness: a concrete growth placement copies the parent id
without advancing the allocator; a concrete spore spawn assigns the
counter and advances it once; the kelp seed carries fresh id 1; and a step
of a fresh 3×3 simulation keeps all ids below the allocator. -/
theorem organism_id_allocation_witness :
    ((getCell (growthTry [[waterCell], [rootCellFresh]] seaweedDef rootCellFresh
        1 2 1 0 [(0, -1)] ⟨[[waterCell], [rootCellFresh]], 5, zeroRNG⟩).g 0 0).agent_id =
      rootCellFresh.agent_id ∧
     (growthTry [[waterCell], [rootCellFresh]] seaweedDef rootCellFresh
        1 2 1 0 [(0, -1)] ⟨[[waterCell], [rootCellFresh]], 5, zeroRNG⟩).nid = 5) ∧
    ((getCell (reproAttempts (mkSim 4 4 zeroRNG).grid seaweedDef rootCellFresh
        4 4 3 3 1 ⟨(mkSim 4 4 zeroRNG).grid, 7, zeroRNG⟩).g 0 0).agent_id = some 7 ∧
     (reproAttempts (mkSim 4 4 zeroRNG).grid seaweedDef rootCellFresh
        4 4 3 3 1 ⟨(mkSim 4 4 zeroRNG).grid, 7, zeroRNG⟩).nid = 7 + 1) ∧
    ((getCell (plant_seed (mkSim 10 10 zeroRNG) 5 8 SPECIES_KELP).2.grid 8 5).agent_id =
      some (mkSim 10 10 zeroRNG).next_agent_id) ∧
    (ibg (step (mkSim 3 3 zeroRNG)).next_agent_id (step (mkSim 3 3 zeroRNG)).grid ∧
      (mkSim 3 3 zeroRNG).next_agent_id ≤ (step (mkSim 3 3 zeroRNG)).next_agent_id) := by
  refine ⟨?_, ?_, ?_, ?_⟩
  · exact organism_id_allocation.1 [[waterCell], [rootCellFresh]] seaweedDef
      rootCellFresh 1 2 1 0 [(0, -1)] ⟨[[waterCell], [rootCellFresh]], 5, zeroRNG⟩
      0 0 (by decide) (by decide)
  · exact (organism_id_allocation.2.1 (mkSim 4 4 zeroRNG).grid seaweedDef
      rootCellFresh 4 4 3 3 1 ⟨(mkSim 4 4 zeroRNG).grid, 7, zeroRNG⟩).2 0 0 (by decide)
  · exact (organism_id_allocation.2.2.1 (mkSim 10 10 zeroRNG) 5 8 SPECIES_KELP).2
      8 5 (by decide)
  · exact organism_id_allocation.2.2.2 (mkSim 3 3 zeroRNG)
      (cellPred_of_forall_mem (P := idBound 1) (by unfold idBound; decide)
        (by unfold idBound; decide))

end OceanCA
